import Mathlib

/-!
# servercheck: the CPU-core and disk-available checkers

A shallow embedding of `pkg/check/cpucore.go` and `pkg/check/disk_avail.go`.

* A Go `string` is a sequence of bytes, and `s[:len(s)-1]` removes the last
  byte; strings are therefore modelled as `List UInt8`, and the literals of the
  source are written with `goStr`, the UTF-8 bytes of a Lean string.
* A method with a pointer receiver that mutates its receiver is modelled as a
  function from the receiver's fields to the new fields and the returned values.
* A run-time panic (nil dereference, index or slice bound out of range) is an
  explicit outcome, carrying the fields as they were when the panic was raised.
* The retriever is an interface; what `Get` / `Collect` returned on a call is an
  argument of `Check`.
* `parse.ParseDiskForDir`, `parse.ParseSize` and `system.GetAvailableSpace` live
  in packages that are not part of these two files; they are parameters.
-/

namespace ServerCheck

/-- A Go string: its bytes. -/
abbrev GoString := List UInt8

/-- The bytes of a string literal of the source (Go source text is UTF-8). -/
def goStr (s : String) : GoString := s.toList.flatMap String.utf8EncodeChar

/-- What the verb `%d` of `fmt.Sprintf` prints for an `int`: its decimal digits, with a leading
minus sign when negative. -/
def fmtInt (n : Int) : GoString := goStr (toString n)

/-- A non-nil Go `error` value. `trace` is what `errors.Trace` of juju/errors returns for a
non-nil error: a new non-nil error that wraps its argument. -/
inductive GoError where
  | mk (msg : GoString)
  | trace (cause : GoError)
  deriving DecidableEq, Repr

/-- The call `errors.Trace(err)` on the paths where `err != nil`. -/
def Trace (err : GoError) : GoError := GoError.trace err

/-- Modelled from the spec: the type `v1.ReturnCode` of `api/check/v1` is not among the sources;
the spec gives it as the enumeration PASS, WARN, FAIL, the three constants the checkers assign. -/
inductive ReturnCode where
  | PASS
  | WARN
  | FAIL
  deriving DecidableEq, Repr

/-- How a call of a method with receiver fields `σ` ends: it returns an `error` (`none` is `nil`)
with the receiver as it left it, or it panics. -/
inductive Outcome (σ : Type) where
  | returned (c : σ) (err : Option GoError)
  | panicked (c : σ)
  deriving DecidableEq, Repr

/-! ## cpucore.go -/

/-- The struct `CPUCoreOption`. -/
structure CPUCoreOption where
  number : Int
  deriving DecidableEq, Repr

/-- The struct `CPUCoreChecker`, without its retriever (see the header); `item` is the non-nil
pointer the checker is configured with. -/
structure CPUCoreChecker where
  name : GoString
  item : CPUCoreOption
  description : GoString
  suggestionOnFail : GoString
  rc : ReturnCode
  result : GoString
  deriving DecidableEq, Repr

/-- What `CPURetriever.Get` returned: a pointer that may be nil, and an error that may be nil. -/
abbrev GetResult := Option CPUCoreOption × Option GoError

/-- The method `RealCPURetriever.Get`, given the value of `runtime.NumCPU()`. -/
def RealCPURetriever.Get (numCPU : Int) : GetResult :=
  (some { number := numCPU }, none)

/-- The constructor `newCPUChecker`; `zeroRC` is the zero value of `v1.ReturnCode`, which the
fields left out of the composite literal take (the other two are the empty string). -/
def newCPUChecker (zeroRC : ReturnCode) (item : CPUCoreOption) : CPUCoreChecker :=
  { name := goStr "CPUCore"
    description := goStr "check CPU core"
    item := item
    suggestionOnFail := []
    rc := zeroRC
    result := [] }

/-- The method `CPUCoreChecker.diff`: the receiver afterwards and the returned `pass`. -/
def CPUCoreChecker.diff (c : CPUCoreChecker) (actual : CPUCoreOption) : CPUCoreChecker × Bool :=
  let pass := true
  let coreNumInfo :=
    goStr "[number of cores] acutal: " ++ fmtInt actual.number ++ goStr ", expect: "
      ++ fmtInt c.item.number
  let c := { c with result := c.result ++ coreNumInfo }
  if actual.number < c.item.number then
    ({ c with suggestionOnFail :=
        c.suggestionOnFail ++ goStr "[number of cores] increase server's CPU" }, false)
  else
    (c, pass)

/-- The method `CPUCoreChecker.Check`. A nil `actual` with a nil error panics at `actual.number`,
the first statement of `diff` that touches it, before any field is written. -/
def CPUCoreChecker.Check (c : CPUCoreChecker) (got : GetResult) : Outcome CPUCoreChecker :=
  match got.2 with
  | some err => Outcome.returned c (some (Trace err))
  | none =>
    match got.1 with
    | none => Outcome.panicked c
    | some actual =>
      match c.diff actual with
      | (c, true) => Outcome.returned { c with rc := ReturnCode.PASS } none
      | (c, false) => Outcome.returned { c with rc := ReturnCode.WARN } none

def CPUCoreChecker.Name (c : CPUCoreChecker) : GoString := c.name

def CPUCoreChecker.Description (c : CPUCoreChecker) : GoString := c.description

def CPUCoreChecker.ReturnCode (c : CPUCoreChecker) : ReturnCode := c.rc

def CPUCoreChecker.Result (c : CPUCoreChecker) : GoString := c.result

def CPUCoreChecker.SuggestionOnFail (c : CPUCoreChecker) : GoString := c.suggestionOnFail

/-! ## disk_avail.go -/

/-- The struct `DiskAvailChecker`, without its retriever. -/
structure DiskAvailChecker where
  name : GoString
  description : GoString
  suggestionOnFail : GoString
  rc : ReturnCode
  result : GoString
  deriving DecidableEq, Repr

/-- The three values `parse.ParseDiskForDir` returns next to a nil error: the directory, the size
in bytes and the suggestion. The size has an integer type in the source (it is converted with
`float64(...)` before it is formatted). -/
structure DiskRecord where
  dir : GoString
  size : Int
  failedSug : GoString
  deriving DecidableEq, Repr

/-- The signature of `parse.ParseDiskForDir`: the three values, or a non-nil error. -/
abbrev DiskParser := GoString → Except GoError DiskRecord

/-- What `DiskAvailRetriever.Collect` returned: `exp.DiskOfDir` behind the pointer `exp` (`none`
when a pointer on the way is nil), `act.diskOfDir` behind `act`, and the error. -/
structure CollectResult where
  exp : Option (List GoString)
  act : Option (List GoString)
  err : Option GoError
  deriving DecidableEq, Repr

/-- The constructor `newDiskAvailChecker`; `zeroRC` as in `newCPUChecker`. -/
def newDiskAvailChecker (zeroRC : ReturnCode) : DiskAvailChecker :=
  { name := goStr "DiskAvail"
    description := goStr "check DiskAvail"
    suggestionOnFail := []
    rc := zeroRC
    result := [] }

/-- How the `for ... range` loop of `diff` ends: it runs to the end with the local `pass`, it
leaves `diff` through one of the two `return false, errors.Trace(err)`, or `exp.DiskOfDir[i]`
panics. -/
inductive LoopResult where
  | done (c : DiskAvailChecker) (pass : Bool)
  | failed (c : DiskAvailChecker) (err : GoError)
  | panicked (c : DiskAvailChecker)
  deriving DecidableEq, Repr

/-- The receiver as the loop left it, however it ended. -/
def LoopResult.checker : LoopResult → DiskAvailChecker
  | LoopResult.done c _ => c
  | LoopResult.failed c _ => c
  | LoopResult.panicked c => c

/-- The expression `s[:len(s)-1]`: `none` is the panic for `len(s) = 0`. -/
def trimLast (s : GoString) : Option GoString :=
  if s.length = 0 then none else some (s.take (s.length - 1))

section
variable {F : Type} (ParseDiskForDir : DiskParser) (ParseSize : F → GoString) (float64 : Int → F)

/-- The loop of `DiskAvailChecker.diff` from index `i` on, over the records of `act.diskOfDir`
that are left: `a` holds what the source names `actSize`, `e` what it names `dir`, `expSize` and
`failedSug`. -/
def DiskAvailChecker.diffLoop (exp : Option (List GoString)) :
    List GoString → Nat → DiskAvailChecker → Bool → LoopResult
  | [], _, c, pass => LoopResult.done c pass
  | d :: rest, i, c, pass =>
    match ParseDiskForDir d with
    | Except.error err => LoopResult.failed c (Trace err)
    | Except.ok a =>
      match exp.bind (fun l => l[i]?) with
      | none => LoopResult.panicked c
      | some x =>
        match ParseDiskForDir x with
        | Except.error err => LoopResult.failed c (Trace err)
        | Except.ok e =>
          let c := { c with result := c.result ++
            (e.dir ++ goStr ": act: " ++ ParseSize (float64 a.size) ++ goStr ", exp: "
              ++ ParseSize (float64 e.size) ++ goStr "\n") }
          if e.size > a.size then
            DiskAvailChecker.diffLoop exp rest (i + 1)
              { c with suggestionOnFail :=
                  c.suggestionOnFail ++ (e.dir ++ goStr ": " ++ e.failedSug ++ goStr "\n") }
              false
          else
            DiskAvailChecker.diffLoop exp rest (i + 1) c pass

/-- What `DiskAvailChecker.diff` hands back: `(pass, err)` and the receiver, or a panic. -/
inductive DiffResult where
  | returned (c : DiskAvailChecker) (pass : Bool) (err : Option GoError)
  | panicked (c : DiskAvailChecker)
  deriving DecidableEq, Repr

/-- The method `DiskAvailChecker.diff`. A nil `act` panics at `act.diskOfDir`. -/
def DiskAvailChecker.diff (c : DiskAvailChecker) (exp act : Option (List GoString)) :
    DiffResult :=
  match act with
  | none => DiffResult.panicked c
  | some diskOfDir =>
    match DiskAvailChecker.diffLoop ParseDiskForDir ParseSize float64 exp diskOfDir 0 c true with
    | LoopResult.failed c err => DiffResult.returned c false (some err)
    | LoopResult.panicked c => DiffResult.panicked c
    | LoopResult.done c pass =>
      match trimLast c.result with
      | none => DiffResult.panicked c
      | some r =>
        let c := { c with result := r }
        if !pass then
          match trimLast c.suggestionOnFail with
          | none => DiffResult.panicked c
          | some s => DiffResult.returned { c with suggestionOnFail := s } pass none
        else
          DiffResult.returned c pass none

/-- The method `DiskAvailChecker.Check`. -/
def DiskAvailChecker.Check (c : DiskAvailChecker) (got : CollectResult) :
    Outcome DiskAvailChecker :=
  match got.err with
  | some err => Outcome.returned c (some (Trace err))
  | none =>
    match DiskAvailChecker.diff ParseDiskForDir ParseSize float64
        { c with rc := ReturnCode.FAIL } got.exp got.act with
    | DiffResult.panicked c => Outcome.panicked c
    | DiffResult.returned c _ (some err) => Outcome.returned c (some (Trace err))
    | DiffResult.returned c ok none =>
      if ok then Outcome.returned { c with rc := ReturnCode.PASS } none
      else Outcome.returned c none

/-- The loop of `RealDiskAvailRetriever.Collect` over the records of `r.exp.DiskOfDir` that are
left; `acc` is `r.act.diskOfDir` so far. -/
def RealDiskAvailRetriever.collectLoop (GetAvailableSpace : GoString → Except GoError F) :
    List GoString → List GoString → Except GoError (List GoString)
  | [], acc => Except.ok acc
  | c :: rest, acc =>
    match ParseDiskForDir c with
    | Except.error err => Except.error (Trace err)
    | Except.ok p =>
      match GetAvailableSpace p.dir with
      | Except.error err => Except.error (Trace err)
      | Except.ok actSize =>
        RealDiskAvailRetriever.collectLoop GetAvailableSpace rest
          (acc ++ [p.dir ++ goStr ";" ++ ParseSize actSize ++ goStr ";"])

/-- The method `RealDiskAvailRetriever.Collect`, for a retriever whose `exp` holds the list
`DiskOfDir`. -/
def RealDiskAvailRetriever.Collect (GetAvailableSpace : GoString → Except GoError F)
    (DiskOfDir : List GoString) : CollectResult :=
  match RealDiskAvailRetriever.collectLoop ParseDiskForDir ParseSize GetAvailableSpace
      DiskOfDir [] with
  | Except.error err => { exp := none, act := none, err := some err }
  | Except.ok act => { exp := some DiskOfDir, act := some act, err := none }

end

def DiskAvailChecker.Name (c : DiskAvailChecker) : GoString := c.name

def DiskAvailChecker.Description (c : DiskAvailChecker) : GoString := c.description

def DiskAvailChecker.ReturnCode (c : DiskAvailChecker) : ReturnCode := c.rc

def DiskAvailChecker.Result (c : DiskAvailChecker) : GoString := c.result

def DiskAvailChecker.SuggestionOnFail (c : DiskAvailChecker) : GoString := c.suggestionOnFail

/-! ## The text one run of the disk comparison writes -/

section
variable {F : Type} (ParseSize : F → GoString) (float64 : Int → F)

/-- The result line of one compared pair, without its newline: `a` is the parsed actual record,
`e` the parsed expected record. -/
def resultLine (a e : DiskRecord) : GoString :=
  e.dir ++ goStr ": act: " ++ ParseSize (float64 a.size) ++ goStr ", exp: "
    ++ ParseSize (float64 e.size)

/-- The suggestion entry of one compared pair, without its newline. -/
def suggestionEntry (e : DiskRecord) : GoString :=
  e.dir ++ goStr ": " ++ e.failedSug

/-- The result lines of the aligned pairs, in list order. -/
def resultLines (A E : List DiskRecord) : List GoString :=
  (List.zip A E).map (fun p => resultLine ParseSize float64 p.1 p.2)

/-- The suggestion entries of the aligned pairs whose minimum exceeds the actual size, in list
order. -/
def suggestionEntries (A E : List DiskRecord) : List GoString :=
  ((List.zip A E).filter (fun p => decide (p.2.size > p.1.size))).map
    (fun p => suggestionEntry p.2)

/-- Whether every aligned pair meets its minimum. -/
def allMeet (A E : List DiskRecord) : Bool :=
  (List.zip A E).all (fun p => !decide (p.2.size > p.1.size))

end

/-- Lines joined by single newlines, with no trailing newline. -/
def joinLines (ls : List GoString) : GoString := (goStr "\n").intercalate ls

/-- Each line followed by a newline, as the loop of `diff` appends them. -/
def terminated (ls : List GoString) : GoString := ls.flatMap (fun l => l ++ goStr "\n")

/-- The record `ParseDiskForDir` reads from `d`. -/
def ParsesTo (ParseDiskForDir : DiskParser) (d : GoString) (r : DiskRecord) : Prop :=
  ParseDiskForDir d = Except.ok r

/-! ## Stand-ins for the absent helpers, for concrete runs -/

/-- Modelled from the spec: `parse.ParseDiskForDir` is not among the sources. For concrete runs
this stand-in reads exactly the records listed in `table` and rejects every other string with an
error, as the spec asks of a malformed entry. -/
def tableParser (table : List (GoString × DiskRecord)) : DiskParser := fun s =>
  match table.lookup s with
  | some r => Except.ok r
  | none => Except.error (GoError.mk (goStr "malformed entry"))

/-- Modelled from the spec: `parse.ParseSize` is not among the sources. For concrete runs this
stand-in prints the sizes listed in `table` and a question mark for every other size; a
`float64` is represented by the integer it holds. -/
def tableParseSize (table : List (Int × GoString)) : Int → GoString := fun n =>
  match table.lookup n with
  | some s => s
  | none => goStr "?"

/-- The records of the disk scenario of the spec, section 8: the expected record
`"/;100G;free up /"` with 100G read as 100·10⁹ bytes, and the actual record `"/;50.0GiB;"`, as
`Collect` builds it, for 50 GiB = 50·2³⁰ free bytes; and a second directory that meets its
minimum, and the record of `/` once 200 GiB are free. -/
def scenarioRecords : List (GoString × DiskRecord) :=
  [ (goStr "/;100G;free up /",
      { dir := goStr "/", size := 100000000000, failedSug := goStr "free up /" }),
    (goStr "/;50.0GiB;", { dir := goStr "/", size := 53687091200, failedSug := [] }),
    (goStr "/data;1G;clean /data",
      { dir := goStr "/data", size := 1000000000, failedSug := goStr "clean /data" }),
    (goStr "/data;2.0GiB;", { dir := goStr "/data", size := 2147483648, failedSug := [] }),
    (goStr "/;200.0GiB;", { dir := goStr "/", size := 214748364800, failedSug := [] }) ]

/-- The sizes of the scenario as the spec prints them. -/
def scenarioSizes : List (Int × GoString) :=
  [ (100000000000, goStr "93.1GiB"), (53687091200, goStr "50.0GiB"),
    (1000000000, goStr "953.7MiB"), (2147483648, goStr "2.0GiB"),
    (214748364800, goStr "200.0GiB") ]

/-! ## Callers, the probe log and further stand-ins -/

/-- The receiver after a call, however the call ended. -/
def Outcome.checker {σ : Type} : Outcome σ → σ
  | Outcome.returned c _ => c
  | Outcome.panicked c => c

/-- A caller that invokes `CPUCoreChecker.Check` once for each retriever output of `gots`, in
order, and goes on whatever a call gives back (a panic it recovers from included): the receiver
after the last call. -/
def CPUCoreChecker.checkEach (c : CPUCoreChecker) : List GetResult → CPUCoreChecker
  | [] => c
  | g :: gs => CPUCoreChecker.checkEach (c.Check g).checker gs

section
variable {F : Type} (ParseDiskForDir : DiskParser) (ParseSize : F → GoString) (float64 : Int → F)

/-- A caller that invokes `DiskAvailChecker.Check` once for each retriever output of `gots`, in
order, as `CPUCoreChecker.checkEach` does. -/
def DiskAvailChecker.checkEach (c : DiskAvailChecker) : List CollectResult → DiskAvailChecker
  | [] => c
  | g :: gs =>
    DiskAvailChecker.checkEach
      (DiskAvailChecker.Check ParseDiskForDir ParseSize float64 c g).checker gs

/-- The record `Collect` appends for a directory whose probe returned `actSize`:
`fmt.Sprintf("%s;%s;", dir, hunmanSize)`. -/
def actualRecord (dir : GoString) (actSize : F) : GoString :=
  dir ++ goStr ";" ++ ParseSize actSize ++ goStr ";"

/-- The loop of `RealDiskAvailRetriever.Collect` once more, with its calls of
`system.GetAvailableSpace` written down: next to what the loop gives, the directories it has
probed, in call order (`probed` holds the calls so far). -/
def RealDiskAvailRetriever.collectLoopProbed
    (GetAvailableSpace : GoString → Except GoError F) :
    List GoString → List GoString → List GoString →
      Except GoError (List GoString) × List GoString
  | [], acc, probed => (Except.ok acc, probed)
  | c :: rest, acc, probed =>
    match ParseDiskForDir c with
    | Except.error err => (Except.error (Trace err), probed)
    | Except.ok p =>
      match GetAvailableSpace p.dir with
      | Except.error err => (Except.error (Trace err), probed ++ [p.dir])
      | Except.ok actSize =>
        RealDiskAvailRetriever.collectLoopProbed GetAvailableSpace rest
          (acc ++ [p.dir ++ goStr ";" ++ ParseSize actSize ++ goStr ";"]) (probed ++ [p.dir])

/-- The probe of the directory of a parsed record returns `v`. -/
def ProbesTo (GetAvailableSpace : GoString → Except GoError F) (r : DiskRecord) (v : F) : Prop :=
  GetAvailableSpace r.dir = Except.ok v

/-- The record `x` stops `Collect` with the error `err`: it does not parse, or it parses and the
probe of its directory fails. -/
def StopsWith (GetAvailableSpace : GoString → Except GoError F) (x : GoString) (err : GoError) :
    Prop :=
  ParseDiskForDir x = Except.error err ∨
    ∃ r, ParseDiskForDir x = Except.ok r ∧ GetAvailableSpace r.dir = Except.error err

/-- The directory `Collect` probes for the record `x`, if it gets as far as probing. -/
def probedFor (x : GoString) : List GoString :=
  match ParseDiskForDir x with
  | Except.error _ => []
  | Except.ok r => [r.dir]

end

/-- Modelled from the spec: `system.GetAvailableSpace` is not among the sources. For concrete
runs this stand-in returns the free bytes listed in `table` and fails for every other path, as
the spec says of a path that does not exist; a `float64` is represented by the integer it
holds. -/
def tableProbe (table : List (GoString × Int)) : GoString → Except GoError Int := fun dir =>
  match table.lookup dir with
  | some v => Except.ok v
  | none => Except.error (GoError.mk (goStr "no such file or directory"))

/-- Records for an end-to-end run: the minimum of `/` is 100G = 100·10⁹ bytes; a formatter that
prints one decimal of a GiB prints 100·10⁹ bytes as `93.1GiB`, and `"/;93.1GiB;"` is read back
as 93.1·2³⁰ bytes, rounded down. -/
def roundTripRecords : List (GoString × DiskRecord) :=
  [ (goStr "/;100G;free up /",
      { dir := goStr "/", size := 100000000000, failedSug := goStr "free up /" }),
    (goStr "/;93.1GiB;", { dir := goStr "/", size := 99965363814, failedSug := [] }) ]

/-- The sizes of the end-to-end run as printed. -/
def roundTripSizes : List (Int × GoString) :=
  [ (100000000000, goStr "93.1GiB"), (99965363814, goStr "93.1GiB") ]

/-- The free space of the end-to-end run: `/` has exactly 100·10⁹ bytes free. -/
def roundTripFree : List (GoString × Int) :=
  [ (goStr "/", 100000000000) ]

/-- The free space of the scenario: 50 GiB on `/`, 2 GiB on `/data`; no other path exists. -/
def scenarioFree : List (GoString × Int) :=
  [ (goStr "/", 53687091200), (goStr "/data", 2147483648) ]

/-! ## Lemmas -/

theorem goStr_newline : goStr "\n" = [10] := by decide

theorem trimLast_append_singleton (s : GoString) (b : UInt8) : trimLast (s ++ [b]) = some s := by
  simp [trimLast]

theorem trimLast_nil : trimLast [] = none := by
  simp [trimLast]

theorem terminated_eq_joinLines (ls : List GoString) (h : ls ≠ []) :
    terminated ls = joinLines ls ++ goStr "\n" := by
  induction ls with
  | nil => exact absurd rfl h
  | cons l rest ih =>
    cases rest with
    | nil => simp [terminated, joinLines, List.intercalate]
    | cons l2 rest2 =>
      have h2 := ih (by simp)
      simp only [terminated, joinLines, List.intercalate, List.flatMap_cons,
        List.intersperse_cons_cons, List.flatten_cons, List.append_assoc] at h2 ⊢
      rw [h2]

theorem trimLast_terminated (s : GoString) (ls : List GoString) (h : ls ≠ []) :
    trimLast (s ++ terminated ls) = some (s ++ joinLines ls) := by
  rw [terminated_eq_joinLines ls h, goStr_newline, ← List.append_assoc]
  exact trimLast_append_singleton _ _

section
variable {F : Type} (ParseDiskForDir : DiskParser) (ParseSize : F → GoString) (float64 : Int → F)

/-- The loop of `diff` when every compared record parses: it runs to the end, appends one
terminated result line per pair, one terminated suggestion entry per failing pair, and clears
`pass` exactly when some pair fails. -/
theorem diffLoop_all_parse (exps : List GoString) :
    ∀ (acts : List GoString) (A E : List DiskRecord) (i : Nat) (c : DiskAvailChecker)
      (pass : Bool),
      List.Forall₂ (ParsesTo ParseDiskForDir) acts A →
      List.Forall₂ (ParsesTo ParseDiskForDir) ((exps.drop i).take acts.length) E →
      acts.length ≤ (exps.drop i).length →
      DiskAvailChecker.diffLoop ParseDiskForDir ParseSize float64 (some exps) acts i c pass
        = LoopResult.done
            { c with
              result := c.result ++ terminated (resultLines ParseSize float64 A E)
              suggestionOnFail := c.suggestionOnFail ++ terminated (suggestionEntries A E) }
            (pass && allMeet A E) := by
  intro acts
  induction acts with
  | nil =>
    intro A E i c pass hA hE _
    cases hA
    simp at hE
    subst hE
    simp [DiskAvailChecker.diffLoop, terminated, resultLines, suggestionEntries, allMeet]
  | cons d rest ih =>
    intro A E i c pass hA hE hlen
    cases hA with
    | cons hd hrest =>
      rename_i a A1
      cases hx : exps.drop i with
      | nil => rw [hx] at hlen; simp at hlen
      | cons x xs =>
        rw [hx] at hE hlen
        simp only [List.length_cons, List.take_succ_cons] at hE
        cases hE with
        | cons he hErest =>
          rename_i e E1
          have hi : exps[i]? = some x := by
            have := congrArg (fun l => l[0]?) hx
            simpa using this
          have hdrop : exps.drop (i + 1) = xs := by
            have := congrArg List.tail hx
            simpa using this
          have hlen1 : rest.length ≤ (exps.drop (i + 1)).length := by
            rw [hdrop]; simpa using hlen
          rw [← hdrop] at hErest
          unfold ParsesTo at hd he
          simp only [DiskAvailChecker.diffLoop, hd, he, Option.bind, hi]
          by_cases hcmp : e.size > a.size
          · simp only [hcmp, if_true]
            rw [ih A1 E1 (i + 1) _ false hrest hErest hlen1]
            simp [terminated, resultLines, suggestionEntries, allMeet, hcmp, resultLine,
              suggestionEntry]
          · simp only [hcmp, if_false]
            rw [ih A1 E1 (i + 1) _ pass hrest hErest hlen1]
            simp [terminated, resultLines, suggestionEntries, allMeet, hcmp, resultLine]

theorem suggestionEntries_ne_nil (A E : List DiskRecord) (h : allMeet A E = false) :
    suggestionEntries A E ≠ [] := by
  unfold allMeet at h
  unfold suggestionEntries
  generalize List.zip A E = ps at h
  induction ps with
  | nil => simp at h
  | cons p ps ih =>
    by_cases hp : p.2.size > p.1.size
    · simp [List.filter_cons, hp]
    · simp only [List.all_cons, hp, decide_False, Bool.not_false, Bool.true_and] at h
      simp only [List.filter_cons, hp, decide_False]
      exact ih h

theorem suggestionEntries_eq_nil (A E : List DiskRecord) (h : allMeet A E = true) :
    suggestionEntries A E = [] := by
  unfold allMeet at h
  unfold suggestionEntries
  generalize List.zip A E = ps at h
  induction ps with
  | nil => rfl
  | cons p ps ih =>
    simp only [List.all_cons, Bool.and_eq_true, Bool.not_eq_true', decide_eq_false_iff_not] at h
    simp only [List.filter_cons, h.1, decide_False]
    exact ih h.2

theorem resultLines_ne_nil (A E : List DiskRecord) (hA : A ≠ []) (hE : E ≠ []) :
    resultLines ParseSize float64 A E ≠ [] := by
  cases A with
  | nil => exact absurd rfl hA
  | cons a A1 =>
    cases E with
    | nil => exact absurd rfl hE
    | cons e E1 => simp [resultLines]

/-- One run of `Check` over a non-empty actual list whose records, and the expected records at
the same indices, all parse: the fields afterwards, for any fields before. -/
theorem Check_all_parse (c : DiskAvailChecker) (exps acts : List GoString)
    (A E : List DiskRecord) (hne : acts ≠ [])
    (hA : List.Forall₂ (ParsesTo ParseDiskForDir) acts A)
    (hE : List.Forall₂ (ParsesTo ParseDiskForDir) (exps.take acts.length) E)
    (hlen : acts.length ≤ exps.length) :
    DiskAvailChecker.Check ParseDiskForDir ParseSize float64 c
        { exp := some exps, act := some acts, err := none }
      = Outcome.returned
          { c with
            rc := if allMeet A E then ReturnCode.PASS else ReturnCode.FAIL
            result := c.result ++ joinLines (resultLines ParseSize float64 A E)
            suggestionOnFail :=
              if allMeet A E then c.suggestionOnFail
              else c.suggestionOnFail ++ joinLines (suggestionEntries A E) }
          none := by
  have hAne : A ≠ [] := by
    intro h; subst h; cases hA; exact hne rfl
  have hEne : E ≠ [] := by
    intro h; subst h
    have := hE.length_eq
    simp only [List.length_take, List.length_nil] at this
    have h0 : acts.length = 0 := by omega
    exact hne (List.length_eq_zero.mp h0)
  have hloop := diffLoop_all_parse ParseDiskForDir ParseSize float64 exps acts A E 0
    { c with rc := ReturnCode.FAIL } true hA (by simpa using hE) (by simpa using hlen)
  have hres := trimLast_terminated c.result (resultLines ParseSize float64 A E)
    (resultLines_ne_nil ParseSize float64 A E hAne hEne)
  simp only [DiskAvailChecker.Check, DiskAvailChecker.diff, hloop, hres, Bool.true_and]
  cases hm : allMeet A E with
  | true => simp [suggestionEntries_eq_nil A E hm, terminated]
  | false =>
    have hsug := trimLast_terminated c.suggestionOnFail (suggestionEntries A E)
      (suggestionEntries_ne_nil A E hm)
    simp [hsug]

end

section
variable {F : Type} (ParseDiskForDir : DiskParser) (ParseSize : F → GoString) (float64 : Int → F)

/-- The loop of `diff` writes only the result text and the suggestion text. -/
theorem diffLoop_frame (exp : Option (List GoString)) :
    ∀ (acts : List GoString) (i : Nat) (c : DiskAvailChecker) (pass : Bool),
      (DiskAvailChecker.diffLoop ParseDiskForDir ParseSize float64 exp acts i c pass).checker.rc
          = c.rc ∧
      (DiskAvailChecker.diffLoop ParseDiskForDir ParseSize float64 exp acts i c pass).checker.name
          = c.name ∧
      (DiskAvailChecker.diffLoop ParseDiskForDir ParseSize float64 exp acts i c
          pass).checker.description = c.description := by
  intro acts
  induction acts with
  | nil => intro i c pass; simp [DiskAvailChecker.diffLoop, LoopResult.checker]
  | cons d rest ih =>
    intro i c pass
    simp only [DiskAvailChecker.diffLoop]
    split
    · simp [LoopResult.checker]
    · split
      · simp [LoopResult.checker]
      · split
        · simp [LoopResult.checker]
        · split
          · exact ih (i + 1) _ false
          · exact ih (i + 1) _ pass

/-- When `Collect` succeeds and `Check` still returns an error, the error was raised in the loop
of `diff`, after `Check` had set the return code to FAIL. -/
theorem Check_error_after_collect (c c1 : DiskAvailChecker) (exp act : Option (List GoString))
    (e : GoError)
    (h : DiskAvailChecker.Check ParseDiskForDir ParseSize float64 c
        { exp := exp, act := act, err := none } = Outcome.returned c1 (some e)) :
    c1.rc = ReturnCode.FAIL := by
  cases act with
  | none => simp [DiskAvailChecker.Check, DiskAvailChecker.diff] at h
  | some acts =>
    have hf := (diffLoop_frame ParseDiskForDir ParseSize float64 exp acts 0
      { c with rc := ReturnCode.FAIL } true).1
    simp only [DiskAvailChecker.Check, DiskAvailChecker.diff] at h
    cases hl : DiskAvailChecker.diffLoop ParseDiskForDir ParseSize float64 exp acts 0
        { c with rc := ReturnCode.FAIL } true with
    | failed c2 err =>
      rw [hl] at hf
      simp only [hl, Outcome.returned.injEq] at h
      rw [← h.1]
      simpa [LoopResult.checker] using hf
    | panicked c2 => simp [hl] at h
    | done c2 pass =>
      simp only [hl] at h
      cases ht : trimLast c2.result with
      | none => simp [ht] at h
      | some r =>
        simp only [ht] at h
        cases pass with
        | true => simp at h
        | false =>
          simp only [Bool.not_false, if_true] at h
          cases ht2 : trimLast c2.suggestionOnFail with
          | none => simp [ht2] at h
          | some s2 => simp [ht2] at h

end

section
variable {F : Type} (ParseDiskForDir : DiskParser) (ParseSize : F → GoString) (float64 : Int → F)

/-- Records that each parse have a list of parsed records. -/
theorem forall₂_of_all_parse (l : List GoString)
    (h : ∀ d ∈ l, ∃ r, ParseDiskForDir d = Except.ok r) :
    ∃ A : List DiskRecord, List.Forall₂ (ParsesTo ParseDiskForDir) l A := by
  induction l with
  | nil => exact ⟨[], List.Forall₂.nil⟩
  | cons d rest ih =>
    obtain ⟨r, hr⟩ := h d (by simp)
    obtain ⟨A, hA⟩ := ih (fun x hx => h x (by simp [hx]))
    exact ⟨r :: A, List.Forall₂.cons hr hA⟩

/-- The loop of `diff` over aligned lists leaves through `return false, errors.Trace(err)` when
some record it is to compare does not parse. -/
theorem diffLoop_fails (exps : List GoString) :
    ∀ (acts : List GoString) (i : Nat) (c : DiskAvailChecker) (pass : Bool),
      acts.length = (exps.drop i).length →
      ((∃ d ∈ acts, ∃ err, ParseDiskForDir d = Except.error err) ∨
        (∃ x ∈ exps.drop i, ∃ err, ParseDiskForDir x = Except.error err)) →
      ∃ c1 e, DiskAvailChecker.diffLoop ParseDiskForDir ParseSize float64 (some exps) acts i c pass
        = LoopResult.failed c1 e := by
  intro acts
  induction acts with
  | nil =>
    intro i c pass hlen hbad
    have hnil : exps.drop i = [] := List.length_eq_zero.mp (by simpa using hlen.symm)
    rw [hnil] at hbad
    simp at hbad
  | cons d rest ih =>
    intro i c pass hlen hbad
    cases hx : exps.drop i with
    | nil => rw [hx] at hlen; simp at hlen
    | cons x xs =>
      rw [hx] at hlen hbad
      have hi : exps[i]? = some x := by
        have := congrArg (fun l => l[0]?) hx
        simpa using this
      have hdrop : exps.drop (i + 1) = xs := by
        have := congrArg List.tail hx
        simpa using this
      have hlen1 : rest.length = (exps.drop (i + 1)).length := by
        rw [hdrop]; simpa using hlen
      cases hd : ParseDiskForDir d with
      | error err => exact ⟨c, Trace err, by simp only [DiskAvailChecker.diffLoop, hd]⟩
      | ok a =>
        cases he : ParseDiskForDir x with
        | error err =>
          exact ⟨c, Trace err, by simp only [DiskAvailChecker.diffLoop, hd, Option.bind, hi, he]⟩
        | ok e =>
          have hbad1 : (∃ d ∈ rest, ∃ err, ParseDiskForDir d = Except.error err) ∨
              (∃ x ∈ exps.drop (i + 1), ∃ err, ParseDiskForDir x = Except.error err) := by
            rw [hdrop]
            rcases hbad with ⟨d1, hmem, err, herr⟩ | ⟨x1, hmem, err, herr⟩
            · rcases List.mem_cons.mp hmem with rfl | hmem1
              · rw [hd] at herr; cases herr
              · exact Or.inl ⟨d1, hmem1, err, herr⟩
            · rcases List.mem_cons.mp hmem with rfl | hmem1
              · rw [he] at herr; cases herr
              · exact Or.inr ⟨x1, hmem1, err, herr⟩
          simp only [DiskAvailChecker.diffLoop, hd, Option.bind, hi, he]
          split
          · exact ih (i + 1) _ false hlen1 hbad1
          · exact ih (i + 1) _ pass hlen1 hbad1

end

theorem allMeet_iff (A E : List DiskRecord) :
    allMeet A E = true ↔
      ∀ (i : Nat) (ha : i < A.length) (he : i < E.length), E[i].size ≤ A[i].size := by
  unfold allMeet
  induction A generalizing E with
  | nil => simp
  | cons a A1 ih =>
    cases E with
    | nil => simp
    | cons e E1 =>
      simp only [List.zip_cons_cons, List.all_cons, Bool.and_eq_true, Bool.not_eq_true',
        decide_eq_false_iff_not, not_lt, ih E1, List.length_cons]
      constructor
      · rintro ⟨h0, hrest⟩ i ha he
        cases i with
        | zero => simpa using h0
        | succ j => simpa using hrest j (by omega) (by omega)
      · intro h
        refine ⟨by simpa using h 0 (by omega) (by omega), fun i ha he => ?_⟩
        simpa using h (i + 1) (by omega) (by omega)

/-- One run of `CPUCoreChecker.Check` on a count returned without error: the fields afterwards,
for any fields before. -/
theorem cpu_Check_ok (c : CPUCoreChecker) (a : Int) :
    c.Check (some { number := a }, none)
      = Outcome.returned
          { c with
            result := c.result ++
              (goStr "[number of cores] acutal: " ++ fmtInt a ++ goStr ", expect: "
                ++ fmtInt c.item.number)
            suggestionOnFail :=
              if a < c.item.number then
                c.suggestionOnFail ++ goStr "[number of cores] increase server's CPU"
              else c.suggestionOnFail
            rc := if a < c.item.number then ReturnCode.WARN else ReturnCode.PASS }
          none := by
  by_cases h : a < c.item.number
  · simp only [CPUCoreChecker.Check, CPUCoreChecker.diff, h, if_true]
  · simp only [CPUCoreChecker.Check, CPUCoreChecker.diff, h, if_false]

/-! ## The claims -/

set_option maxRecDepth 20000

/-- C1: for every configured minimum and every actual count the retriever returns without
error, `Check` returns no error, and the return code afterwards is PASS when the actual count
is at least the minimum and WARN when it is below; it is never FAIL. This holds whatever the
fields of the checker were before. -/
theorem C1_cpu_check_verdict (c : CPUCoreChecker) (a : Int) :
    ∃ c1 : CPUCoreChecker,
      c.Check (some { number := a }, none) = Outcome.returned c1 none ∧
      c1.ReturnCode = (if c.item.number ≤ a then ReturnCode.PASS else ReturnCode.WARN) ∧
      c1.ReturnCode ≠ ReturnCode.FAIL := by
  refine ⟨_, cpu_Check_ok c a, ?_, ?_⟩
  · by_cases h : a < c.item.number
    · have h2 : ¬ c.item.number ≤ a := by omega
      simp [CPUCoreChecker.ReturnCode, h, h2]
    · have h2 : c.item.number ≤ a := by omega
      simp [CPUCoreChecker.ReturnCode, h, h2]
  · by_cases h : a < c.item.number <;> simp [CPUCoreChecker.ReturnCode, h]

/-- The two runs C1 names: minimum 4 with 2 cores gives WARN, minimum 4 with 8 cores gives PASS,
each without error. -/
theorem C1_cpu_check_verdict_witness :
    (∃ c1 : CPUCoreChecker,
      (newCPUChecker ReturnCode.FAIL { number := 4 }).Check (RealCPURetriever.Get 2)
        = Outcome.returned c1 none ∧ c1.ReturnCode = ReturnCode.WARN) ∧
    (∃ c1 : CPUCoreChecker,
      (newCPUChecker ReturnCode.FAIL { number := 4 }).Check (RealCPURetriever.Get 8)
        = Outcome.returned c1 none ∧ c1.ReturnCode = ReturnCode.PASS) := by
  constructor
  · obtain ⟨c1, h, hrc, _⟩ := C1_cpu_check_verdict (newCPUChecker ReturnCode.FAIL { number := 4 }) 2
    exact ⟨c1, h, by simpa [newCPUChecker] using hrc⟩
  · obtain ⟨c1, h, hrc, _⟩ := C1_cpu_check_verdict (newCPUChecker ReturnCode.FAIL { number := 4 }) 8
    exact ⟨c1, h, by simpa [newCPUChecker] using hrc⟩

section
variable {F : Type} (ParseDiskForDir : DiskParser) (ParseSize : F → GoString) (float64 : Int → F)

/-- C2: for a non-empty actual list and an expected list of the same length whose records all
parse, `Check` returns no error, and the return code afterwards is PASS if and only if at every
index the actual bytes are at least the minimum bytes; otherwise it is FAIL, never WARN. This
holds whatever the fields of the checker were before. -/
theorem C2_disk_check_verdict (c : DiskAvailChecker) (exps acts : List GoString)
    (A E : List DiskRecord) (hne : acts ≠ []) (hlen : acts.length = exps.length)
    (hA : List.Forall₂ (ParsesTo ParseDiskForDir) acts A)
    (hE : List.Forall₂ (ParsesTo ParseDiskForDir) exps E) :
    ∃ c1 : DiskAvailChecker,
      DiskAvailChecker.Check ParseDiskForDir ParseSize float64 c
          { exp := some exps, act := some acts, err := none } = Outcome.returned c1 none ∧
      (c1.ReturnCode = ReturnCode.PASS ↔
        ∀ (i : Nat) (ha : i < A.length) (he : i < E.length), E[i].size ≤ A[i].size) ∧
      (c1.ReturnCode ≠ ReturnCode.PASS → c1.ReturnCode = ReturnCode.FAIL) ∧
      c1.ReturnCode ≠ ReturnCode.WARN := by
  have hE1 : List.Forall₂ (ParsesTo ParseDiskForDir) (exps.take acts.length) E := by
    rw [hlen, List.take_length]; exact hE
  refine ⟨_, Check_all_parse ParseDiskForDir ParseSize float64 c exps acts A E hne hA hE1
    (le_of_eq hlen), ?_, ?_, ?_⟩
  · rw [← allMeet_iff]
    cases allMeet A E <;> simp [DiskAvailChecker.ReturnCode]
  · cases allMeet A E <;> simp [DiskAvailChecker.ReturnCode]
  · cases allMeet A E <;> simp [DiskAvailChecker.ReturnCode]

/-- A run of C2: `/` has 50 GiB free against a minimum of 100G and `/data` meets its minimum;
`Check` returns no error and the return code is FAIL. -/
theorem C2_disk_check_verdict_witness :
    ∃ c1 : DiskAvailChecker,
      DiskAvailChecker.Check (tableParser scenarioRecords) (tableParseSize scenarioSizes) id
          (newDiskAvailChecker ReturnCode.WARN)
          { exp := some [goStr "/;100G;free up /", goStr "/data;1G;clean /data"]
            act := some [goStr "/;50.0GiB;", goStr "/data;2.0GiB;"]
            err := none } = Outcome.returned c1 none ∧
      c1.ReturnCode = ReturnCode.FAIL := by
  obtain ⟨c1, h, hiff, hfail, _⟩ :=
    C2_disk_check_verdict (tableParser scenarioRecords) (tableParseSize scenarioSizes) id
      (newDiskAvailChecker ReturnCode.WARN)
      [goStr "/;100G;free up /", goStr "/data;1G;clean /data"]
      [goStr "/;50.0GiB;", goStr "/data;2.0GiB;"]
      [{ dir := goStr "/", size := 53687091200, failedSug := [] },
       { dir := goStr "/data", size := 2147483648, failedSug := [] }]
      [{ dir := goStr "/", size := 100000000000, failedSug := goStr "free up /" },
       { dir := goStr "/data", size := 1000000000, failedSug := goStr "clean /data" }]
      (by simp) rfl
      (List.Forall₂.cons (by rfl) (List.Forall₂.cons (by rfl) List.Forall₂.nil))
      (List.Forall₂.cons (by rfl) (List.Forall₂.cons (by rfl) List.Forall₂.nil))
  refine ⟨c1, h, hfail (fun hp => ?_)⟩
  have h0 := hiff.mp hp 0 (by decide) (by decide)
  exact absurd h0 (by decide)

/-- C3: on a freshly constructed checker, when `Collect` returns an empty expected list and an
empty actual list without error, as `RealDiskAvailRetriever.Collect` does for an empty
configured list, `Check` does not return: it sets the return code to FAIL and then panics in
`diff`, where `c.result[:len(c.result)-1]` is evaluated on the empty string. -/
theorem C3_empty_lists_panic (zeroRC : ReturnCode)
    (GetAvailableSpace : GoString → Except GoError F) :
    RealDiskAvailRetriever.Collect ParseDiskForDir ParseSize GetAvailableSpace []
      = { exp := some [], act := some [], err := none } ∧
    DiskAvailChecker.Check ParseDiskForDir ParseSize float64 (newDiskAvailChecker zeroRC)
        { exp := some [], act := some [], err := none }
      = Outcome.panicked { newDiskAvailChecker zeroRC with rc := ReturnCode.FAIL } := by
  constructor
  · simp [RealDiskAvailRetriever.Collect, RealDiskAvailRetriever.collectLoop]
  · simp [DiskAvailChecker.Check, DiskAvailChecker.diff, DiskAvailChecker.diffLoop,
      newDiskAvailChecker, trimLast]

/-- C4: for both checkers and every fields before the call, when the retriever returns an error,
`Check` returns a non-nil error (the traced one) and leaves every field as it was, so return
code, result text and suggestion text are unchanged. -/
theorem C4_retriever_error_changes_nothing (cpu : CPUCoreChecker) (disk : DiskAvailChecker)
    (actual : Option CPUCoreOption) (exp act : Option (List GoString)) (err : GoError) :
    cpu.Check (actual, some err) = Outcome.returned cpu (some (Trace err)) ∧
    DiskAvailChecker.Check ParseDiskForDir ParseSize float64 disk
        { exp := exp, act := act, err := some err }
      = Outcome.returned disk (some (Trace err)) := by
  constructor
  · simp [CPUCoreChecker.Check]
  · simp [DiskAvailChecker.Check]

/-- C5, as stated, fails: a check of `/data` passes and sets PASS; on the next call `Collect`
succeeds but the expected record `"/;100G"` does not parse, `Check` returns an error, and the
return code has changed from PASS to FAIL. -/
theorem C5_parse_error_sets_fail :
    ∃ (c1 c2 : DiskAvailChecker) (e : GoError),
      DiskAvailChecker.Check (tableParser scenarioRecords) (tableParseSize scenarioSizes) id
          (newDiskAvailChecker ReturnCode.WARN)
          { exp := some [goStr "/data;1G;clean /data"], act := some [goStr "/data;2.0GiB;"]
            err := none } = Outcome.returned c1 none ∧
      DiskAvailChecker.Check (tableParser scenarioRecords) (tableParseSize scenarioSizes) id c1
          { exp := some [goStr "/;100G"], act := some [goStr "/;50.0GiB;"]
            err := none } = Outcome.returned c2 (some e) ∧
      c1.ReturnCode = ReturnCode.PASS ∧ c2.ReturnCode = ReturnCode.FAIL ∧
      c2.ReturnCode ≠ c1.ReturnCode :=
  ⟨_, _, _, rfl, rfl, rfl, rfl, by decide⟩

/-- C5, amended: whenever `Check` returns an error, for every fields before and every retriever
output: if the error came from the retriever, the return code is what it was before the call;
if the retriever succeeded (the error came from a record that failed to parse during the
comparison), the return code is FAIL, the default `Check` sets before comparing. -/
theorem C5_return_code_after_error (c c1 : DiskAvailChecker) (got : CollectResult) (e : GoError)
    (h : DiskAvailChecker.Check ParseDiskForDir ParseSize float64 c got
      = Outcome.returned c1 (some e)) :
    (got.err ≠ none → c1.ReturnCode = c.ReturnCode) ∧
    (got.err = none → c1.ReturnCode = ReturnCode.FAIL) := by
  obtain ⟨exp, act, err⟩ := got
  constructor
  · intro hne
    cases err with
    | none => exact absurd rfl hne
    | some e0 =>
      simp only [DiskAvailChecker.Check, Outcome.returned.injEq] at h
      rw [← h.1]
  · intro hnone
    simp only at hnone
    subst hnone
    exact Check_error_after_collect ParseDiskForDir ParseSize float64 c c1 exp act e h

end

/-- A run of the amended C5: `Collect` succeeds, the expected record `"/;100G"` does not parse;
`Check` returns the traced error and the return code, WARN before, is FAIL. -/
theorem C5_return_code_after_error_witness :
    DiskAvailChecker.Check (tableParser scenarioRecords) (tableParseSize scenarioSizes) id
        (newDiskAvailChecker ReturnCode.WARN)
        { exp := some [goStr "/;100G"], act := some [goStr "/;50.0GiB;"], err := none }
      = Outcome.returned { newDiskAvailChecker ReturnCode.WARN with rc := ReturnCode.FAIL }
          (some (Trace (Trace (GoError.mk (goStr "malformed entry"))))) ∧
    ((none : Option GoError) = none →
      ({ newDiskAvailChecker ReturnCode.WARN with rc := ReturnCode.FAIL } :
        DiskAvailChecker).ReturnCode = ReturnCode.FAIL) :=
  ⟨rfl, (C5_return_code_after_error (tableParser scenarioRecords) (tableParseSize scenarioSizes)
    id (newDiskAvailChecker ReturnCode.WARN)
    { newDiskAvailChecker ReturnCode.WARN with rc := ReturnCode.FAIL }
    { exp := some [goStr "/;100G"], act := some [goStr "/;50.0GiB;"], err := none }
    (Trace (Trace (GoError.mk (goStr "malformed entry")))) rfl).2⟩

/-- C6: a second `Check` with the same retriever output does not leave the texts as the first
call left them; it appends to them. CPU checker with minimum 4 and 2 cores, and disk checker
with `/` at 50 GiB against 100G: after the second call the result text and the suggestion text
are those of the first call written twice, with nothing in between. -/
theorem C6_second_check_appends (zeroRC : ReturnCode) :
    (∃ c1 c2 : CPUCoreChecker,
      (newCPUChecker zeroRC { number := 4 }).Check (RealCPURetriever.Get 2)
        = Outcome.returned c1 none ∧
      c1.Check (RealCPURetriever.Get 2) = Outcome.returned c2 none ∧
      c1.Result = goStr "[number of cores] acutal: 2, expect: 4" ∧
      c2.Result
        = goStr "[number of cores] acutal: 2, expect: 4[number of cores] acutal: 2, expect: 4" ∧
      c1.SuggestionOnFail = goStr "[number of cores] increase server's CPU" ∧
      c2.SuggestionOnFail
        = goStr "[number of cores] increase server's CPU[number of cores] increase server's CPU") ∧
    (∃ c1 c2 : DiskAvailChecker,
      DiskAvailChecker.Check (tableParser scenarioRecords) (tableParseSize scenarioSizes) id
          (newDiskAvailChecker zeroRC)
          { exp := some [goStr "/;100G;free up /"], act := some [goStr "/;50.0GiB;"]
            err := none } = Outcome.returned c1 none ∧
      DiskAvailChecker.Check (tableParser scenarioRecords) (tableParseSize scenarioSizes) id c1
          { exp := some [goStr "/;100G;free up /"], act := some [goStr "/;50.0GiB;"]
            err := none } = Outcome.returned c2 none ∧
      c1.Result = goStr "/: act: 50.0GiB, exp: 93.1GiB" ∧
      c2.Result = goStr "/: act: 50.0GiB, exp: 93.1GiB/: act: 50.0GiB, exp: 93.1GiB" ∧
      c1.SuggestionOnFail = goStr "/: free up /" ∧
      c2.SuggestionOnFail = goStr "/: free up //: free up /") :=
  ⟨⟨_, _, rfl, rfl, rfl, rfl, rfl, rfl⟩, ⟨_, _, rfl, rfl, rfl, rfl, rfl, rfl⟩⟩

/-- C7: a `Check` that passes leaves the suggestion text of an earlier failed `Check` in place.
CPU checker with minimum 4: 2 cores give WARN and the suggestion, then 8 cores give PASS and
the suggestion is still there. Disk checker with minimum 100G for `/`: 50 GiB give FAIL and the
suggestion, then 200 GiB give PASS and the suggestion is still there. -/
theorem C7_pass_keeps_old_suggestion (zeroRC : ReturnCode) :
    (∃ c1 c2 : CPUCoreChecker,
      (newCPUChecker zeroRC { number := 4 }).Check (RealCPURetriever.Get 2)
        = Outcome.returned c1 none ∧
      c1.Check (RealCPURetriever.Get 8) = Outcome.returned c2 none ∧
      c1.ReturnCode = ReturnCode.WARN ∧ c2.ReturnCode = ReturnCode.PASS ∧
      c2.SuggestionOnFail = goStr "[number of cores] increase server's CPU") ∧
    (∃ c1 c2 : DiskAvailChecker,
      DiskAvailChecker.Check (tableParser scenarioRecords) (tableParseSize scenarioSizes) id
          (newDiskAvailChecker zeroRC)
          { exp := some [goStr "/;100G;free up /"], act := some [goStr "/;50.0GiB;"]
            err := none } = Outcome.returned c1 none ∧
      DiskAvailChecker.Check (tableParser scenarioRecords) (tableParseSize scenarioSizes) id c1
          { exp := some [goStr "/;100G;free up /"], act := some [goStr "/;200.0GiB;"]
            err := none } = Outcome.returned c2 none ∧
      c1.ReturnCode = ReturnCode.FAIL ∧ c2.ReturnCode = ReturnCode.PASS ∧
      c2.SuggestionOnFail = goStr "/: free up /") :=
  ⟨⟨_, _, rfl, rfl, rfl, rfl, rfl⟩, ⟨_, _, rfl, rfl, rfl, rfl, rfl⟩⟩

section
variable {F : Type} (ParseDiskForDir : DiskParser) (ParseSize : F → GoString) (float64 : Int → F)

/-- C8: on a freshly constructed checker, for a non-empty actual list and an expected list of
the same length whose records all parse, the suggestion text after `Check` is the entries
`<directory>: <suggestion>` of exactly the indices whose minimum bytes exceed the actual bytes,
in list order, joined by single newlines with no trailing newline; an index that meets its
minimum contributes no entry. -/
theorem C8_suggestion_lists_failing_directories (zeroRC : ReturnCode)
    (exps acts : List GoString) (A E : List DiskRecord) (hne : acts ≠ [])
    (hlen : acts.length = exps.length)
    (hA : List.Forall₂ (ParsesTo ParseDiskForDir) acts A)
    (hE : List.Forall₂ (ParsesTo ParseDiskForDir) exps E) :
    ∃ c1 : DiskAvailChecker,
      DiskAvailChecker.Check ParseDiskForDir ParseSize float64 (newDiskAvailChecker zeroRC)
          { exp := some exps, act := some acts, err := none } = Outcome.returned c1 none ∧
      c1.SuggestionOnFail
        = (goStr "\n").intercalate
            (((List.zip A E).filter (fun p => decide (p.2.size > p.1.size))).map
              (fun p => p.2.dir ++ goStr ": " ++ p.2.failedSug)) := by
  have hE1 : List.Forall₂ (ParsesTo ParseDiskForDir) (exps.take acts.length) E := by
    rw [hlen, List.take_length]; exact hE
  refine ⟨_, Check_all_parse ParseDiskForDir ParseSize float64 (newDiskAvailChecker zeroRC)
    exps acts A E hne hA hE1 (le_of_eq hlen), ?_⟩
  have hdef : (goStr "\n").intercalate
      (((List.zip A E).filter (fun p => decide (p.2.size > p.1.size))).map
        (fun p => p.2.dir ++ goStr ": " ++ p.2.failedSug)) = joinLines (suggestionEntries A E) := rfl
  rw [hdef]
  cases hm : allMeet A E with
  | true =>
    simp [DiskAvailChecker.SuggestionOnFail, newDiskAvailChecker,
      suggestionEntries_eq_nil A E hm, joinLines, List.intercalate]
  | false => simp [DiskAvailChecker.SuggestionOnFail, newDiskAvailChecker]

/-- C9, amended: on a freshly constructed checker with the single expected record
`"/;100G;free up /"`, read as directory `/`, a minimum of `m` bytes and the suggestion
`free up /`, and one actual record for `/` with 50 GiB = 53687091200 bytes free, less than
`m`: `Check` returns no error, the return code is FAIL, and the suggestion text is
`"/: free up /"`, the suggestion keyed by its directory. -/
theorem C9_scenario_suggestion_keyed_by_directory (zeroRC : ReturnCode) (d s : GoString)
    (m : Int)
    (hx : ParsesTo ParseDiskForDir (goStr "/;100G;free up /")
      { dir := goStr "/", size := m, failedSug := goStr "free up /" })
    (hd : ParsesTo ParseDiskForDir d { dir := goStr "/", size := 53687091200, failedSug := s })
    (hlt : 53687091200 < m) :
    ∃ c1 : DiskAvailChecker,
      DiskAvailChecker.Check ParseDiskForDir ParseSize float64 (newDiskAvailChecker zeroRC)
          { exp := some [goStr "/;100G;free up /"], act := some [d], err := none }
        = Outcome.returned c1 none ∧
      c1.ReturnCode = ReturnCode.FAIL ∧
      c1.SuggestionOnFail = goStr "/: free up /" := by
  refine ⟨_, Check_all_parse ParseDiskForDir ParseSize float64 (newDiskAvailChecker zeroRC)
    [goStr "/;100G;free up /"] [d] _ _ (by simp)
    (List.Forall₂.cons hd List.Forall₂.nil)
    (List.Forall₂.cons hx List.Forall₂.nil) (by simp), ?_, ?_⟩
  · have hm : ¬ m ≤ 53687091200 := by omega
    simp [DiskAvailChecker.ReturnCode, allMeet, hm]
  · have hm : ¬ m ≤ 53687091200 := by omega
    have hs : goStr "/" ++ goStr ": " ++ goStr "free up /" = goStr "/: free up /" := by decide
    simp only [DiskAvailChecker.SuggestionOnFail, allMeet, suggestionEntries, suggestionEntry,
      joinLines, newDiskAvailChecker, List.zip_cons_cons, List.zip_nil_right, List.all_cons,
      List.all_nil, gt_iff_lt, hlt, decide_True, Bool.not_true, Bool.false_and,
      List.filter_cons, List.filter_nil, if_true, List.map_cons, List.map_nil, hs,
      List.nil_append, Bool.false_eq_true, if_false]
    simp [List.intercalate]

end

/-- C8 on a run with two directories: `/` is below its minimum and `/data` meets its own; the
suggestion text is the one entry of `/`. -/
theorem C8_suggestion_lists_failing_directories_witness :
    ∃ c1 : DiskAvailChecker,
      DiskAvailChecker.Check (tableParser scenarioRecords) (tableParseSize scenarioSizes) id
          (newDiskAvailChecker ReturnCode.WARN)
          { exp := some [goStr "/;100G;free up /", goStr "/data;1G;clean /data"]
            act := some [goStr "/;50.0GiB;", goStr "/data;2.0GiB;"]
            err := none } = Outcome.returned c1 none ∧
      c1.SuggestionOnFail = goStr "/: free up /" := by
  obtain ⟨c1, h, hs⟩ :=
    C8_suggestion_lists_failing_directories (tableParser scenarioRecords)
      (tableParseSize scenarioSizes) id ReturnCode.WARN
      [goStr "/;100G;free up /", goStr "/data;1G;clean /data"]
      [goStr "/;50.0GiB;", goStr "/data;2.0GiB;"]
      [{ dir := goStr "/", size := 53687091200, failedSug := [] },
       { dir := goStr "/data", size := 2147483648, failedSug := [] }]
      [{ dir := goStr "/", size := 100000000000, failedSug := goStr "free up /" },
       { dir := goStr "/data", size := 1000000000, failedSug := goStr "clean /data" }]
      (by simp) rfl
      (List.Forall₂.cons (by rfl) (List.Forall₂.cons (by rfl) List.Forall₂.nil))
      (List.Forall₂.cons (by rfl) (List.Forall₂.cons (by rfl) List.Forall₂.nil))
  exact ⟨c1, h, hs.trans (by decide)⟩

/-- C9, as stated, fails: in the scenario of the spec the suggestion text after `Check` is
`"/: free up /"`, not `"free up /"`. -/
theorem C9_scenario_suggestion_is_not_bare :
    ∃ c1 : DiskAvailChecker,
      DiskAvailChecker.Check (tableParser scenarioRecords) (tableParseSize scenarioSizes) id
          (newDiskAvailChecker ReturnCode.WARN)
          { exp := some [goStr "/;100G;free up /"], act := some [goStr "/;50.0GiB;"]
            err := none } = Outcome.returned c1 none ∧
      c1.ReturnCode = ReturnCode.FAIL ∧
      c1.SuggestionOnFail = goStr "/: free up /" ∧
      c1.SuggestionOnFail ≠ goStr "free up /" :=
  ⟨_, rfl, rfl, rfl, by decide⟩

/-- The amended C9 on the stand-in parser: 100G is 100·10⁹ bytes, above 50 GiB. -/
theorem C9_scenario_suggestion_keyed_by_directory_witness :
    ∃ c1 : DiskAvailChecker,
      DiskAvailChecker.Check (tableParser scenarioRecords) (tableParseSize scenarioSizes) id
          (newDiskAvailChecker ReturnCode.WARN)
          { exp := some [goStr "/;100G;free up /"], act := some [goStr "/;50.0GiB;"]
            err := none } = Outcome.returned c1 none ∧
      c1.ReturnCode = ReturnCode.FAIL ∧
      c1.SuggestionOnFail = goStr "/: free up /" :=
  C9_scenario_suggestion_keyed_by_directory (tableParser scenarioRecords)
    (tableParseSize scenarioSizes) id ReturnCode.WARN (goStr "/;50.0GiB;") [] 100000000000
    (by rfl) (by rfl) (by decide)

section
variable {F : Type} (ParseDiskForDir : DiskParser) (ParseSize : F → GoString) (float64 : Int → F)

/-- C10: `Check` returns an error only for infrastructure failures. The CPU checker returns nil
whenever the retriever succeeds, for every actual and expected count. The disk checker, on a
non-empty actual list and an expected list of the same length, returns nil when `Collect`
succeeds and every record parses, whatever the comparisons give, and returns a non-nil error when
some record of either list fails to parse; and it returns a non-nil error whenever `Collect`
fails. This holds whatever the fields of the checkers were before. -/
theorem C10_error_only_for_infrastructure (cpu : CPUCoreChecker) (a : Int)
    (disk : DiskAvailChecker) (exps acts : List GoString) (hne : acts ≠ [])
    (hlen : acts.length = exps.length) :
    (∃ c1, cpu.Check (some { number := a }, none) = Outcome.returned c1 none) ∧
    (((∀ d ∈ acts, ∃ r, ParseDiskForDir d = Except.ok r) ∧
        (∀ x ∈ exps, ∃ r, ParseDiskForDir x = Except.ok r)) →
      ∃ c1, DiskAvailChecker.Check ParseDiskForDir ParseSize float64 disk
        { exp := some exps, act := some acts, err := none } = Outcome.returned c1 none) ∧
    (((∃ d ∈ acts, ∃ err, ParseDiskForDir d = Except.error err) ∨
        (∃ x ∈ exps, ∃ err, ParseDiskForDir x = Except.error err)) →
      ∃ c1 e, DiskAvailChecker.Check ParseDiskForDir ParseSize float64 disk
        { exp := some exps, act := some acts, err := none } = Outcome.returned c1 (some e)) ∧
    (∀ (exp act : Option (List GoString)) (err : GoError),
      ∃ c1 e, DiskAvailChecker.Check ParseDiskForDir ParseSize float64 disk
        { exp := exp, act := act, err := some err } = Outcome.returned c1 (some e)) := by
  refine ⟨⟨_, cpu_Check_ok cpu a⟩, ?_, ?_, ?_⟩
  · rintro ⟨hacts, hexps⟩
    obtain ⟨A, hA⟩ := forall₂_of_all_parse ParseDiskForDir acts hacts
    obtain ⟨E, hE⟩ := forall₂_of_all_parse ParseDiskForDir exps hexps
    have hE1 : List.Forall₂ (ParsesTo ParseDiskForDir) (exps.take acts.length) E := by
      rw [hlen, List.take_length]; exact hE
    exact ⟨_, Check_all_parse ParseDiskForDir ParseSize float64 disk exps acts A E hne hA hE1
      (le_of_eq hlen)⟩
  · intro hbad
    obtain ⟨c1, e, hloop⟩ := diffLoop_fails ParseDiskForDir ParseSize float64 exps acts 0
      { disk with rc := ReturnCode.FAIL } true (by simpa using hlen) (by simpa using hbad)
    exact ⟨c1, Trace e, by simp only [DiskAvailChecker.Check, DiskAvailChecker.diff, hloop]⟩
  · intro exp act err
    exact ⟨disk, Trace err, by simp only [DiskAvailChecker.Check]⟩

end

/-- C10 on two runs of the disk checker: `/` below its minimum with records that parse gives no
error; the expected record `"/;100G"`, which does not parse, gives an error. -/
theorem C10_error_only_for_infrastructure_witness :
    (∃ c1, DiskAvailChecker.Check (tableParser scenarioRecords) (tableParseSize scenarioSizes) id
        (newDiskAvailChecker ReturnCode.WARN)
        { exp := some [goStr "/;100G;free up /"], act := some [goStr "/;50.0GiB;"]
          err := none } = Outcome.returned c1 none) ∧
    (∃ c1 e, DiskAvailChecker.Check (tableParser scenarioRecords) (tableParseSize scenarioSizes)
        id (newDiskAvailChecker ReturnCode.WARN)
        { exp := some [goStr "/;100G"], act := some [goStr "/;50.0GiB;"]
          err := none } = Outcome.returned c1 (some e)) :=
  ⟨(C10_error_only_for_infrastructure (tableParser scenarioRecords)
      (tableParseSize scenarioSizes) id (newCPUChecker ReturnCode.WARN { number := 4 }) 2
      (newDiskAvailChecker ReturnCode.WARN) [goStr "/;100G;free up /"] [goStr "/;50.0GiB;"]
      (by simp) rfl).2.1
      ⟨fun d hd => by rw [List.mem_singleton.mp hd]; exact ⟨_, rfl⟩,
       fun x hx => by rw [List.mem_singleton.mp hx]; exact ⟨_, rfl⟩⟩,
   (C10_error_only_for_infrastructure (tableParser scenarioRecords)
      (tableParseSize scenarioSizes) id (newCPUChecker ReturnCode.WARN { number := 4 }) 2
      (newDiskAvailChecker ReturnCode.WARN) [goStr "/;100G"] [goStr "/;50.0GiB;"]
      (by simp) rfl).2.2.1
      (Or.inr ⟨goStr "/;100G", List.mem_singleton.mpr rfl, _, rfl⟩)⟩

/-! ## Lemmas on `Collect` -/

section
variable {F : Type} (ParseDiskForDir : DiskParser) (ParseSize : F → GoString) (float64 : Int → F)
variable (GetAvailableSpace : GoString → Except GoError F)

/-- Writing the probes down does not change what the loop of `Collect` gives. -/
theorem collectLoopProbed_fst :
    ∀ (exps acc probed : List GoString),
      (RealDiskAvailRetriever.collectLoopProbed ParseDiskForDir ParseSize GetAvailableSpace
          exps acc probed).1
        = RealDiskAvailRetriever.collectLoop ParseDiskForDir ParseSize GetAvailableSpace
            exps acc := by
  intro exps
  induction exps with
  | nil => intro acc probed; rfl
  | cons x rest ih =>
    intro acc probed
    simp only [RealDiskAvailRetriever.collectLoopProbed, RealDiskAvailRetriever.collectLoop]
    split
    · rfl
    · split
      · rfl
      · exact ih _ _

/-- The loop of `Collect` over records that all parse and whose probes all succeed. -/
theorem collectLoopProbed_ok :
    ∀ (exps : List GoString) (E : List DiskRecord) (V : List F) (acc probed : List GoString),
      List.Forall₂ (ParsesTo ParseDiskForDir) exps E →
      List.Forall₂ (ProbesTo GetAvailableSpace) E V →
      RealDiskAvailRetriever.collectLoopProbed ParseDiskForDir ParseSize GetAvailableSpace
          exps acc probed
        = (Except.ok (acc ++ List.zipWith (fun r v => actualRecord ParseSize r.dir v) E V),
            probed ++ E.map (fun r => r.dir)) := by
  intro exps
  induction exps with
  | nil =>
    intro E V acc probed hE hV
    cases hE
    cases hV
    simp [RealDiskAvailRetriever.collectLoopProbed]
  | cons x rest ih =>
    intro E V acc probed hE hV
    cases hE with
    | cons hx hrest =>
      cases hV with
      | cons hv hVrest =>
        unfold ParsesTo at hx
        unfold ProbesTo at hv
        simp only [RealDiskAvailRetriever.collectLoopProbed, hx, hv]
        rw [ih _ _ _ _ hrest hVrest]
        simp [actualRecord]

/-- The loop of `Collect` when the records of `pre` succeed and the next record stops it: the
error is that of the stopping record, and the probes are those of `pre` and, if the stopping
record parses, its own. -/
theorem collectLoopProbed_stop :
    ∀ (pre : List GoString) (bad : GoString) (rest : List GoString) (E : List DiskRecord)
      (V : List F) (err : GoError) (acc probed : List GoString),
      List.Forall₂ (ParsesTo ParseDiskForDir) pre E →
      List.Forall₂ (ProbesTo GetAvailableSpace) E V →
      StopsWith ParseDiskForDir GetAvailableSpace bad err →
      RealDiskAvailRetriever.collectLoopProbed ParseDiskForDir ParseSize GetAvailableSpace
          (pre ++ bad :: rest) acc probed
        = (Except.error (Trace err),
            probed ++ E.map (fun r => r.dir) ++ probedFor ParseDiskForDir bad) := by
  intro pre
  induction pre with
  | nil =>
    intro bad rest E V err acc probed hE _ hbad
    cases hE
    rcases hbad with hp | ⟨r, hp, hg⟩
    · simp [RealDiskAvailRetriever.collectLoopProbed, hp, probedFor]
    · simp [RealDiskAvailRetriever.collectLoopProbed, hp, hg, probedFor]
  | cons x pre1 ih =>
    intro bad rest E V err acc probed hE hV hbad
    cases hE with
    | cons hx hrest =>
      cases hV with
      | cons hv hVrest =>
        unfold ParsesTo at hx
        unfold ProbesTo at hv
        rw [List.cons_append]
        simp only [RealDiskAvailRetriever.collectLoopProbed, hx, hv]
        rw [ih bad rest _ _ err _ _ hrest hVrest hbad]
        simp

/-- A list with a record that stops `Collect` splits at the first such record. -/
theorem exists_first_stop (exps : List GoString)
    (h : ∃ x ∈ exps, ∃ err, StopsWith ParseDiskForDir GetAvailableSpace x err) :
    ∃ (pre : List GoString) (bad : GoString) (rest : List GoString) (E : List DiskRecord)
      (V : List F) (err : GoError),
      exps = pre ++ bad :: rest ∧
      List.Forall₂ (ParsesTo ParseDiskForDir) pre E ∧
      List.Forall₂ (ProbesTo GetAvailableSpace) E V ∧
      StopsWith ParseDiskForDir GetAvailableSpace bad err := by
  induction exps with
  | nil => simp at h
  | cons x rest ih =>
    cases hp : ParseDiskForDir x with
    | error err => exact ⟨[], x, rest, [], [], err, rfl, List.Forall₂.nil, List.Forall₂.nil,
        Or.inl hp⟩
    | ok r =>
      cases hg : GetAvailableSpace r.dir with
      | error err => exact ⟨[], x, rest, [], [], err, rfl, List.Forall₂.nil, List.Forall₂.nil,
          Or.inr ⟨r, hp, hg⟩⟩
      | ok v =>
        have h1 : ∃ y ∈ rest, ∃ err, StopsWith ParseDiskForDir GetAvailableSpace y err := by
          obtain ⟨y, hy, err, hs⟩ := h
          rcases List.mem_cons.mp hy with rfl | hy1
          · rcases hs with hs | ⟨r2, hs, hg2⟩
            · rw [hp] at hs; cases hs
            · rw [hp] at hs; cases hs; rw [hg] at hg2; cases hg2
          · exact ⟨y, hy1, err, hs⟩
        obtain ⟨pre, bad, rest1, E, V, err, heq, hE, hV, hs⟩ := ih h1
        exact ⟨x :: pre, bad, rest1, r :: E, v :: V, err, by rw [heq]; rfl,
          List.Forall₂.cons hp hE, List.Forall₂.cons hg hV, hs⟩

end

/-! ## The claims on `Collect`, the texts and the frame -/

section
variable {F : Type} (ParseDiskForDir : DiskParser) (ParseSize : F → GoString) (float64 : Int → F)
variable (GetAvailableSpace : GoString → Except GoError F)

/-- C11: `Collect`, for any record parser, size formatter and free-space probe. If every expected
record parses and every probe succeeds, it returns the expected list unchanged, no error, and an
actual list of the same length and order whose entry for a record is
`<dir>;<ParseSize(probe(dir))>;`, `dir` being parsed from that record. If some record does not
parse or some probe fails, it returns an error with nil expected and nil actual values; the
error is that of the first such record, the only directories probed are those before it and,
if it parses, its own, and what is returned does not depend on the records after it. -/
theorem C11_collect_aligned_or_nothing (exps : List GoString) :
    (∀ (E : List DiskRecord) (V : List F),
      List.Forall₂ (ParsesTo ParseDiskForDir) exps E →
      List.Forall₂ (ProbesTo GetAvailableSpace) E V →
      RealDiskAvailRetriever.Collect ParseDiskForDir ParseSize GetAvailableSpace exps
        = { exp := some exps
            act := some
              (List.zipWith (fun r v => r.dir ++ goStr ";" ++ ParseSize v ++ goStr ";") E V)
            err := none } ∧
      (List.zipWith (fun r v => r.dir ++ goStr ";" ++ ParseSize v ++ goStr ";") E V).length
        = exps.length) ∧
    ((∃ x ∈ exps, ∃ err, StopsWith ParseDiskForDir GetAvailableSpace x err) →
      ∃ e, RealDiskAvailRetriever.Collect ParseDiskForDir ParseSize GetAvailableSpace exps
        = { exp := none, act := none, err := some e }) ∧
    (∀ (pre : List GoString) (bad : GoString) (rest : List GoString) (E : List DiskRecord)
      (V : List F) (err : GoError),
      exps = pre ++ bad :: rest →
      List.Forall₂ (ParsesTo ParseDiskForDir) pre E →
      List.Forall₂ (ProbesTo GetAvailableSpace) E V →
      StopsWith ParseDiskForDir GetAvailableSpace bad err →
      RealDiskAvailRetriever.Collect ParseDiskForDir ParseSize GetAvailableSpace exps
        = { exp := none, act := none, err := some (Trace err) } ∧
      (RealDiskAvailRetriever.collectLoopProbed ParseDiskForDir ParseSize GetAvailableSpace
          exps [] []).2 = E.map (fun r => r.dir) ++ probedFor ParseDiskForDir bad ∧
      RealDiskAvailRetriever.Collect ParseDiskForDir ParseSize GetAvailableSpace exps
        = RealDiskAvailRetriever.Collect ParseDiskForDir ParseSize GetAvailableSpace
            (pre ++ [bad])) := by
  have hstop : ∀ (pre : List GoString) (bad : GoString) (rest : List GoString)
      (E : List DiskRecord) (V : List F) (err : GoError),
      List.Forall₂ (ParsesTo ParseDiskForDir) pre E →
      List.Forall₂ (ProbesTo GetAvailableSpace) E V →
      StopsWith ParseDiskForDir GetAvailableSpace bad err →
      RealDiskAvailRetriever.Collect ParseDiskForDir ParseSize GetAvailableSpace
          (pre ++ bad :: rest) = { exp := none, act := none, err := some (Trace err) } := by
    intro pre bad rest E V err hE hV hs
    have h := congrArg Prod.fst (collectLoopProbed_stop ParseDiskForDir ParseSize
      GetAvailableSpace pre bad rest E V err [] [] hE hV hs)
    rw [collectLoopProbed_fst] at h
    simp only [RealDiskAvailRetriever.Collect, h]
  refine ⟨?_, ?_, ?_⟩
  · intro E V hE hV
    have h := congrArg Prod.fst (collectLoopProbed_ok ParseDiskForDir ParseSize
      GetAvailableSpace exps E V [] [] hE hV)
    rw [collectLoopProbed_fst] at h
    constructor
    · simp only [RealDiskAvailRetriever.Collect, h, List.nil_append, actualRecord]
    · rw [List.length_zipWith, ← hE.length_eq, ← hV.length_eq, hE.length_eq]
      simp
  · intro h
    obtain ⟨pre, bad, rest, E, V, err, heq, hE, hV, hs⟩ :=
      exists_first_stop ParseDiskForDir GetAvailableSpace exps h
    exact ⟨Trace err, by rw [heq]; exact hstop pre bad rest E V err hE hV hs⟩
  · intro pre bad rest E V err heq hE hV hs
    subst heq
    refine ⟨hstop pre bad rest E V err hE hV hs, ?_, ?_⟩
    · have h := congrArg Prod.snd (collectLoopProbed_stop ParseDiskForDir ParseSize
        GetAvailableSpace pre bad rest E V err [] [] hE hV hs)
      simpa using h
    · rw [hstop pre bad rest E V err hE hV hs, hstop pre bad [] E V err hE hV hs]

end

/-- C11 on two runs. With 50 GiB free on `/` and 2 GiB on `/data`, `Collect` returns the two
expected records and the two actual records in the same order. With the malformed record
`"/tmp;1G"` in second place it returns only the error, and `/` is the one directory probed:
`/data`, which comes after, is not. -/
theorem C11_collect_aligned_or_nothing_witness :
    RealDiskAvailRetriever.Collect (tableParser scenarioRecords) (tableParseSize scenarioSizes)
        (tableProbe scenarioFree) [goStr "/;100G;free up /", goStr "/data;1G;clean /data"]
      = { exp := some [goStr "/;100G;free up /", goStr "/data;1G;clean /data"]
          act := some [goStr "/;50.0GiB;", goStr "/data;2.0GiB;"]
          err := none } ∧
    RealDiskAvailRetriever.Collect (tableParser scenarioRecords) (tableParseSize scenarioSizes)
        (tableProbe scenarioFree)
        [goStr "/;100G;free up /", goStr "/tmp;1G", goStr "/data;1G;clean /data"]
      = { exp := none, act := none
          err := some (Trace (GoError.mk (goStr "malformed entry"))) } ∧
    (RealDiskAvailRetriever.collectLoopProbed (tableParser scenarioRecords)
        (tableParseSize scenarioSizes) (tableProbe scenarioFree)
        [goStr "/;100G;free up /", goStr "/tmp;1G", goStr "/data;1G;clean /data"] [] []).2
      = [goStr "/"] :=
  ⟨((C11_collect_aligned_or_nothing (tableParser scenarioRecords)
        (tableParseSize scenarioSizes) (tableProbe scenarioFree)
        [goStr "/;100G;free up /", goStr "/data;1G;clean /data"]).1
      [{ dir := goStr "/", size := 100000000000, failedSug := goStr "free up /" },
       { dir := goStr "/data", size := 1000000000, failedSug := goStr "clean /data" }]
      [53687091200, 2147483648]
      (List.Forall₂.cons (by rfl) (List.Forall₂.cons (by rfl) List.Forall₂.nil))
      (List.Forall₂.cons (by rfl) (List.Forall₂.cons (by rfl) List.Forall₂.nil))).1.trans
      (by rfl),
   ((C11_collect_aligned_or_nothing (tableParser scenarioRecords)
        (tableParseSize scenarioSizes) (tableProbe scenarioFree)
        [goStr "/;100G;free up /", goStr "/tmp;1G", goStr "/data;1G;clean /data"]).2.2
      [goStr "/;100G;free up /"] (goStr "/tmp;1G") [goStr "/data;1G;clean /data"]
      [{ dir := goStr "/", size := 100000000000, failedSug := goStr "free up /" }]
      [53687091200] (GoError.mk (goStr "malformed entry")) rfl
      (List.Forall₂.cons (by rfl) List.Forall₂.nil)
      (List.Forall₂.cons (by rfl) List.Forall₂.nil)
      (Or.inl (by rfl))).1,
   ((C11_collect_aligned_or_nothing (tableParser scenarioRecords)
        (tableParseSize scenarioSizes) (tableProbe scenarioFree)
        [goStr "/;100G;free up /", goStr "/tmp;1G", goStr "/data;1G;clean /data"]).2.2
      [goStr "/;100G;free up /"] (goStr "/tmp;1G") [goStr "/data;1G;clean /data"]
      [{ dir := goStr "/", size := 100000000000, failedSug := goStr "free up /" }]
      [53687091200] (GoError.mk (goStr "malformed entry")) rfl
      (List.Forall₂.cons (by rfl) List.Forall₂.nil)
      (List.Forall₂.cons (by rfl) List.Forall₂.nil)
      (Or.inl (by rfl))).2.1.trans (by rfl)⟩

/-- A call of `CPUCoreChecker.Check` leaves name, description and configured item as they were,
however it ends. -/
theorem cpu_Check_frame (c : CPUCoreChecker) (g : GetResult) :
    (c.Check g).checker.name = c.name ∧ (c.Check g).checker.description = c.description ∧
      (c.Check g).checker.item = c.item := by
  obtain ⟨actual, err⟩ := g
  cases err with
  | some e => simp [CPUCoreChecker.Check, Outcome.checker]
  | none =>
    cases actual with
    | none => simp [CPUCoreChecker.Check, Outcome.checker]
    | some a =>
      rw [cpu_Check_ok c a.number]
      simp [Outcome.checker]

section
variable {F : Type} (ParseDiskForDir : DiskParser) (ParseSize : F → GoString) (float64 : Int → F)

/-- A call of `DiskAvailChecker.Check` leaves name and description as they were, however it
ends. -/
theorem disk_Check_frame (c : DiskAvailChecker) (g : CollectResult) :
    (DiskAvailChecker.Check ParseDiskForDir ParseSize float64 c g).checker.name = c.name ∧
    (DiskAvailChecker.Check ParseDiskForDir ParseSize float64 c g).checker.description
      = c.description := by
  obtain ⟨exp, act, err⟩ := g
  cases err with
  | some e => simp [DiskAvailChecker.Check, Outcome.checker]
  | none =>
    cases act with
    | none => simp [DiskAvailChecker.Check, DiskAvailChecker.diff, Outcome.checker]
    | some acts =>
      have hf := diffLoop_frame ParseDiskForDir ParseSize float64 exp acts 0
        { c with rc := ReturnCode.FAIL } true
      simp only [DiskAvailChecker.Check, DiskAvailChecker.diff]
      cases hl : DiskAvailChecker.diffLoop ParseDiskForDir ParseSize float64 exp acts 0
          { c with rc := ReturnCode.FAIL } true with
      | failed c2 err2 =>
        rw [hl] at hf
        simpa [Outcome.checker, LoopResult.checker] using hf.2
      | panicked c2 =>
        rw [hl] at hf
        simpa [Outcome.checker, LoopResult.checker] using hf.2
      | done c2 pass =>
        rw [hl] at hf
        simp only [LoopResult.checker] at hf
        cases ht : trimLast c2.result with
        | none => simpa [Outcome.checker, ht] using hf.2
        | some r =>
          cases pass with
          | true => simpa [Outcome.checker, ht] using hf.2
          | false =>
            cases ht2 : trimLast c2.suggestionOnFail with
            | none => simpa [Outcome.checker, ht, ht2] using hf.2
            | some s2 => simpa [Outcome.checker, ht, ht2] using hf.2

/-- C12: on a freshly constructed checker, for a non-empty actual list and an expected list of
the same length `n` whose records all parse, the result text after `Check` is `n` lines, one per
index in list order, the line of an index being
`<directory>: act: <ParseSize(actual bytes)>, exp: <ParseSize(minimum bytes)>` with the
directory of the expected record, joined by single newlines with no trailing newline. -/
theorem C12_result_lines (zeroRC : ReturnCode) (exps acts : List GoString)
    (A E : List DiskRecord) (hne : acts ≠ []) (hlen : acts.length = exps.length)
    (hA : List.Forall₂ (ParsesTo ParseDiskForDir) acts A)
    (hE : List.Forall₂ (ParsesTo ParseDiskForDir) exps E) :
    ∃ c1 : DiskAvailChecker,
      DiskAvailChecker.Check ParseDiskForDir ParseSize float64 (newDiskAvailChecker zeroRC)
          { exp := some exps, act := some acts, err := none } = Outcome.returned c1 none ∧
      c1.Result
        = (goStr "\n").intercalate
            ((List.zip A E).map (fun p =>
              p.2.dir ++ goStr ": act: " ++ ParseSize (float64 p.1.size) ++ goStr ", exp: "
                ++ ParseSize (float64 p.2.size))) ∧
      ((List.zip A E).map (fun p =>
          p.2.dir ++ goStr ": act: " ++ ParseSize (float64 p.1.size) ++ goStr ", exp: "
            ++ ParseSize (float64 p.2.size))).length = acts.length := by
  have hE1 : List.Forall₂ (ParsesTo ParseDiskForDir) (exps.take acts.length) E := by
    rw [hlen, List.take_length]; exact hE
  refine ⟨_, Check_all_parse ParseDiskForDir ParseSize float64 (newDiskAvailChecker zeroRC)
    exps acts A E hne hA hE1 (le_of_eq hlen), ?_, ?_⟩
  · simp [DiskAvailChecker.Result, newDiskAvailChecker, joinLines, resultLines, resultLine]
  · have h1 := hA.length_eq
    have h2 := hE.length_eq
    simp only [List.length_map, List.length_zip]
    omega

end

/-- C12 on a run with two directories: two lines, in the order of the lists. -/
theorem C12_result_lines_witness :
    ∃ c1 : DiskAvailChecker,
      DiskAvailChecker.Check (tableParser scenarioRecords) (tableParseSize scenarioSizes) id
          (newDiskAvailChecker ReturnCode.WARN)
          { exp := some [goStr "/;100G;free up /", goStr "/data;1G;clean /data"]
            act := some [goStr "/;50.0GiB;", goStr "/data;2.0GiB;"]
            err := none } = Outcome.returned c1 none ∧
      c1.Result
        = goStr "/: act: 50.0GiB, exp: 93.1GiB\n/data: act: 2.0GiB, exp: 953.7MiB" := by
  obtain ⟨c1, h, hr, _⟩ :=
    C12_result_lines (tableParser scenarioRecords) (tableParseSize scenarioSizes) id
      ReturnCode.WARN
      [goStr "/;100G;free up /", goStr "/data;1G;clean /data"]
      [goStr "/;50.0GiB;", goStr "/data;2.0GiB;"]
      [{ dir := goStr "/", size := 53687091200, failedSug := [] },
       { dir := goStr "/data", size := 2147483648, failedSug := [] }]
      [{ dir := goStr "/", size := 100000000000, failedSug := goStr "free up /" },
       { dir := goStr "/data", size := 1000000000, failedSug := goStr "clean /data" }]
      (by simp) rfl
      (List.Forall₂.cons (by rfl) (List.Forall₂.cons (by rfl) List.Forall₂.nil))
      (List.Forall₂.cons (by rfl) (List.Forall₂.cons (by rfl) List.Forall₂.nil))
  exact ⟨c1, h, hr.trans (by decide)⟩

section
variable {F : Type} (ParseDiskForDir : DiskParser) (ParseSize : F → GoString) (float64 : Int → F)

/-- C13: `newCPUChecker` gives the name `CPUCore` and the description `check CPU core`,
`newDiskAvailChecker` gives `DiskAvail` and `check DiskAvail`, and any number of calls of
`Check`, whatever the retriever returns on each (values, an error, nil pointers) and however
each call ends, leaves the name and the description of either checker as they were. -/
theorem C13_name_description_constant (zeroRC : ReturnCode) (item : CPUCoreOption)
    (cpu : CPUCoreChecker) (disk : DiskAvailChecker) (gots : List GetResult)
    (cols : List CollectResult) :
    (newCPUChecker zeroRC item).Name = goStr "CPUCore" ∧
    (newCPUChecker zeroRC item).Description = goStr "check CPU core" ∧
    (newDiskAvailChecker zeroRC).Name = goStr "DiskAvail" ∧
    (newDiskAvailChecker zeroRC).Description = goStr "check DiskAvail" ∧
    (cpu.checkEach gots).Name = cpu.Name ∧
    (cpu.checkEach gots).Description = cpu.Description ∧
    (DiskAvailChecker.checkEach ParseDiskForDir ParseSize float64 disk cols).Name
      = disk.Name ∧
    (DiskAvailChecker.checkEach ParseDiskForDir ParseSize float64 disk cols).Description
      = disk.Description := by
  have hcpu : ∀ (gs : List GetResult) (c : CPUCoreChecker),
      (c.checkEach gs).name = c.name ∧ (c.checkEach gs).description = c.description := by
    intro gs
    induction gs with
    | nil => intro c; exact ⟨rfl, rfl⟩
    | cons g gs ih =>
      intro c
      have h1 := ih (c.Check g).checker
      have h2 := cpu_Check_frame c g
      exact ⟨h1.1.trans h2.1, h1.2.trans h2.2.1⟩
  have hdisk : ∀ (gs : List CollectResult) (c : DiskAvailChecker),
      (DiskAvailChecker.checkEach ParseDiskForDir ParseSize float64 c gs).name = c.name ∧
      (DiskAvailChecker.checkEach ParseDiskForDir ParseSize float64 c gs).description
        = c.description := by
    intro gs
    induction gs with
    | nil => intro c; exact ⟨rfl, rfl⟩
    | cons g gs ih =>
      intro c
      have h1 := ih (DiskAvailChecker.Check ParseDiskForDir ParseSize float64 c g).checker
      have h2 := disk_Check_frame ParseDiskForDir ParseSize float64 c g
      exact ⟨h1.1.trans h2.1, h1.2.trans h2.2⟩
  exact ⟨rfl, rfl, rfl, rfl, (hcpu gots cpu).1, (hcpu gots cpu).2, (hdisk cols disk).1,
    (hdisk cols disk).2⟩

end

/-- C14: on a freshly constructed CPU checker with minimum `m`, when the retriever returns the
count `a` without error, the result text after `Check` is
`[number of cores] acutal: <a>, expect: <m>` with both counts in decimal, and the suggestion
text is `[number of cores] increase server's CPU` when `a < m` and empty when `a >= m`. -/
theorem C14_cpu_texts (zeroRC : ReturnCode) (m a : Int) :
    ∃ c1 : CPUCoreChecker,
      (newCPUChecker zeroRC { number := m }).Check (some { number := a }, none)
        = Outcome.returned c1 none ∧
      c1.Result
        = goStr "[number of cores] acutal: " ++ fmtInt a ++ goStr ", expect: " ++ fmtInt m ∧
      c1.SuggestionOnFail
        = (if a < m then goStr "[number of cores] increase server's CPU" else []) := by
  refine ⟨_, cpu_Check_ok (newCPUChecker zeroRC { number := m }) a, ?_, ?_⟩
  · simp [CPUCoreChecker.Result, newCPUChecker]
  · by_cases h : a < m <;> simp [CPUCoreChecker.SuggestionOnFail, newCPUChecker, h]

/-- C14 on three runs: minimum 4 with 2 cores, minimum 4 with 8 cores, and minimum 16 with 12
cores, the texts written out. -/
theorem C14_cpu_texts_witness :
    (∃ c1 : CPUCoreChecker,
      (newCPUChecker ReturnCode.WARN { number := 4 }).Check (RealCPURetriever.Get 2)
        = Outcome.returned c1 none ∧
      c1.Result = goStr "[number of cores] acutal: 2, expect: 4" ∧
      c1.SuggestionOnFail = goStr "[number of cores] increase server's CPU") ∧
    (∃ c1 : CPUCoreChecker,
      (newCPUChecker ReturnCode.WARN { number := 4 }).Check (RealCPURetriever.Get 8)
        = Outcome.returned c1 none ∧
      c1.Result = goStr "[number of cores] acutal: 8, expect: 4" ∧
      c1.SuggestionOnFail = []) ∧
    (∃ c1 : CPUCoreChecker,
      (newCPUChecker ReturnCode.WARN { number := 16 }).Check (RealCPURetriever.Get 12)
        = Outcome.returned c1 none ∧
      c1.Result = goStr "[number of cores] acutal: 12, expect: 16" ∧
      c1.SuggestionOnFail = goStr "[number of cores] increase server's CPU") := by
  refine ⟨?_, ?_, ?_⟩
  · obtain ⟨c1, h, hr, hs⟩ := C14_cpu_texts ReturnCode.WARN 4 2
    exact ⟨c1, h, hr.trans (by decide), hs.trans (by decide)⟩
  · obtain ⟨c1, h, hr, hs⟩ := C14_cpu_texts ReturnCode.WARN 4 8
    exact ⟨c1, h, hr.trans (by decide), hs.trans (by decide)⟩
  · obtain ⟨c1, h, hr, hs⟩ := C14_cpu_texts ReturnCode.WARN 16 12
    exact ⟨c1, h, hr.trans (by decide), hs.trans (by decide)⟩

/-! ## The claims on bounds, on the records compared, and end to end -/

section
variable {F : Type} (ParseDiskForDir : DiskParser) (ParseSize : F → GoString) (float64 : Int → F)

/-- The loop of `diff` reads the expected list only at the indices of the actual records, and
the parser only on the records it compares: the expected records after `pre`, and the parser
off the compared records, can be exchanged. -/
theorem diffLoop_congr (P2 : DiskParser) (pre extra extra2 : List GoString) :
    ∀ (acts : List GoString) (i : Nat) (c : DiskAvailChecker) (pass : Bool),
      i + acts.length ≤ pre.length →
      (∀ d ∈ acts, P2 d = ParseDiskForDir d) →
      (∀ x ∈ pre, P2 x = ParseDiskForDir x) →
      DiskAvailChecker.diffLoop P2 ParseSize float64 (some (pre ++ extra2)) acts i c pass
        = DiskAvailChecker.diffLoop ParseDiskForDir ParseSize float64 (some (pre ++ extra))
            acts i c pass := by
  intro acts
  induction acts with
  | nil => intro i c pass _ _ _; rfl
  | cons d rest ih =>
    intro i c pass hlen hacts hpre
    have hi : i < pre.length := by simp only [List.length_cons] at hlen; omega
    have hlen1 : i + 1 + rest.length ≤ pre.length := by
      simp only [List.length_cons] at hlen; omega
    have hd : P2 d = ParseDiskForDir d := hacts d (by simp)
    have hrest : ∀ y ∈ rest, P2 y = ParseDiskForDir y := fun y hy => hacts y (by simp [hy])
    have h1 : (pre ++ extra)[i]? = some pre[i] := by
      rw [List.getElem?_append_left hi]; exact List.getElem?_eq_getElem hi
    have h2 : (pre ++ extra2)[i]? = some pre[i] := by
      rw [List.getElem?_append_left hi]; exact List.getElem?_eq_getElem hi
    have hx : P2 pre[i] = ParseDiskForDir pre[i] := hpre _ (List.getElem_mem hi)
    simp only [DiskAvailChecker.diffLoop, hd, Option.bind, h1, h2, hx]
    cases ParseDiskForDir d with
    | error err => rfl
    | ok a =>
      cases ParseDiskForDir pre[i] with
      | error err => rfl
      | ok e =>
        simp only
        split
        · exact ih (i + 1) _ false hlen1 hrest hpre
        · exact ih (i + 1) _ pass hlen1 hrest hpre

/-- C15: under its precondition `diff` makes no access out of range. For every fields before,
every non-empty actual list, every expected list at least as long, and records that all parse:
every index the loop uses is an index of the expected list; the loop runs to the end and leaves
a non-empty result text, so trimming it is in bounds; when `pass` is false the suggestion text
ends in an entry followed by a newline that this call appended, so trimming it is in bounds;
and `diff` returns, with a nil error. -/
theorem C15_diff_in_bounds (c : DiskAvailChecker) (exps acts : List GoString)
    (A E : List DiskRecord) (hne : acts ≠ []) (hlen : acts.length ≤ exps.length)
    (hA : List.Forall₂ (ParsesTo ParseDiskForDir) acts A)
    (hE : List.Forall₂ (ParsesTo ParseDiskForDir) exps E) :
    (∀ i, i < acts.length → ∃ x, exps[i]? = some x) ∧
    (∃ (c2 : DiskAvailChecker) (pass : Bool),
      DiskAvailChecker.diffLoop ParseDiskForDir ParseSize float64 (some exps) acts 0 c true
        = LoopResult.done c2 pass ∧
      c2.result ≠ [] ∧ trimLast c2.result ≠ none ∧
      (pass = false →
        (∃ t : GoString, c2.suggestionOnFail = c.suggestionOnFail ++ (t ++ goStr "\n")) ∧
        trimLast c2.suggestionOnFail ≠ none)) ∧
    (∃ (c1 : DiskAvailChecker) (pass : Bool),
      DiskAvailChecker.diff ParseDiskForDir ParseSize float64 c (some exps) (some acts)
        = DiffResult.returned c1 pass none) := by
  have hE1 : List.Forall₂ (ParsesTo ParseDiskForDir) (exps.take acts.length)
      (E.take acts.length) := List.forall₂_take acts.length hE
  have hAne : A ≠ [] := by
    intro h; subst h; cases hA; exact hne rfl
  have hEne : E.take acts.length ≠ [] := by
    intro h
    have h1 := hE1.length_eq
    rw [h] at h1
    simp only [List.length_take, List.length_nil] at h1
    have h0 : acts.length = 0 := by omega
    exact hne (List.length_eq_zero.mp h0)
  have hloop := diffLoop_all_parse ParseDiskForDir ParseSize float64 exps acts A
    (E.take acts.length) 0 c true hA (by simpa using hE1) (by simpa using hlen)
  have hlines := resultLines_ne_nil ParseSize float64 A (E.take acts.length) hAne hEne
  have hres := trimLast_terminated c.result
    (resultLines ParseSize float64 A (E.take acts.length)) hlines
  refine ⟨?_, ⟨_, _, hloop, ?_, ?_, ?_⟩, ?_⟩
  · intro i hi
    exact ⟨exps[i], List.getElem?_eq_getElem (by omega)⟩
  · simp only [terminated_eq_joinLines _ hlines, goStr_newline]
    simp
  · simp only [hres]
    simp
  · intro hp
    have hm : allMeet A (E.take acts.length) = false := by simpa using hp
    have hent := suggestionEntries_ne_nil A (E.take acts.length) hm
    refine ⟨⟨joinLines (suggestionEntries A (E.take acts.length)), ?_⟩, ?_⟩
    · simp only [terminated_eq_joinLines _ hent]
    · simp only [trimLast_terminated c.suggestionOnFail _ hent]
      simp
  · simp only [DiskAvailChecker.diff, hloop, hres, Bool.true_and]
    cases hm : allMeet A (E.take acts.length) with
    | true => exact ⟨_, _, rfl⟩
    | false =>
      have hsug := trimLast_terminated c.suggestionOnFail
        (suggestionEntries A (E.take acts.length)) (suggestionEntries_ne_nil A _ hm)
      simp only [Bool.not_false, if_true, hsug]
      exact ⟨_, _, rfl⟩

end

/-- C15 on a run where the expected list is longer than the actual list: `diff` returns. -/
theorem C15_diff_in_bounds_witness :
    ∃ (c1 : DiskAvailChecker) (pass : Bool),
      DiskAvailChecker.diff (tableParser scenarioRecords) (tableParseSize scenarioSizes) id
          (newDiskAvailChecker ReturnCode.WARN)
          (some [goStr "/;100G;free up /", goStr "/data;1G;clean /data"])
          (some [goStr "/;50.0GiB;"])
        = DiffResult.returned c1 pass none :=
  (C15_diff_in_bounds (tableParser scenarioRecords) (tableParseSize scenarioSizes) id
    (newDiskAvailChecker ReturnCode.WARN)
    [goStr "/;100G;free up /", goStr "/data;1G;clean /data"] [goStr "/;50.0GiB;"]
    [{ dir := goStr "/", size := 53687091200, failedSug := [] }]
    [{ dir := goStr "/", size := 100000000000, failedSug := goStr "free up /" },
     { dir := goStr "/data", size := 1000000000, failedSug := goStr "clean /data" }]
    (by simp) (by decide)
    (List.Forall₂.cons (by rfl) List.Forall₂.nil)
    (List.Forall₂.cons (by rfl) (List.Forall₂.cons (by rfl) List.Forall₂.nil))).2.2

section
variable {F : Type} (ParseDiskForDir : DiskParser) (ParseSize : F → GoString) (float64 : Int → F)

/-- C16: `diff` iterates over the actual list only. For a non-empty actual list of length `k`
and an expected list whose first `k` records are `pre`, all of them parsing: `Check` returns no
error, and return code, result text and suggestion text are given by the parsed actual records
and the parsed records of `pre` alone. Whatever follows `pre` in the expected list, and whatever
the parser does off the compared records, `Check` gives the same: records at index `k` and
beyond are not read, so they cause neither FAIL nor an error. -/
theorem C16_only_compared_records_matter (c : DiskAvailChecker)
    (acts pre extra extra2 : List GoString) (P2 : DiskParser) (A E : List DiskRecord)
    (hne : acts ≠ []) (hlen : pre.length = acts.length)
    (hA : List.Forall₂ (ParsesTo ParseDiskForDir) acts A)
    (hE : List.Forall₂ (ParsesTo ParseDiskForDir) pre E)
    (hacts : ∀ d ∈ acts, P2 d = ParseDiskForDir d)
    (hpre : ∀ x ∈ pre, P2 x = ParseDiskForDir x) :
    DiskAvailChecker.Check ParseDiskForDir ParseSize float64 c
        { exp := some (pre ++ extra), act := some acts, err := none }
      = Outcome.returned
          { c with
            rc := if allMeet A E then ReturnCode.PASS else ReturnCode.FAIL
            result := c.result ++ joinLines (resultLines ParseSize float64 A E)
            suggestionOnFail :=
              if allMeet A E then c.suggestionOnFail
              else c.suggestionOnFail ++ joinLines (suggestionEntries A E) }
          none ∧
    DiskAvailChecker.Check P2 ParseSize float64 c
        { exp := some (pre ++ extra2), act := some acts, err := none }
      = DiskAvailChecker.Check ParseDiskForDir ParseSize float64 c
          { exp := some (pre ++ extra), act := some acts, err := none } := by
  constructor
  · have htake : (pre ++ extra).take acts.length = pre := List.take_left' hlen
    exact Check_all_parse ParseDiskForDir ParseSize float64 c (pre ++ extra) acts A E hne hA
      (by rw [htake]; exact hE) (by simp only [List.length_append]; omega)
  · have hcongr := diffLoop_congr ParseDiskForDir ParseSize float64 P2 pre extra extra2 acts 0
      { c with rc := ReturnCode.FAIL } true (by omega) hacts hpre
    simp only [DiskAvailChecker.Check, DiskAvailChecker.diff, hcongr]

/-- C17: end to end with `RealDiskAvailRetriever`, for any parser, formatter and probe. For a
non-empty expected list whose records parse, whose probes succeed, and whose collected records
`<dir>;<ParseSize(probe(dir))>;` parse again: `Check` on what `Collect` returns gives no error,
and the return code is PASS if and only if at every index the size read back from the
collected record (not the value the probe returned) is at least the minimum of the expected
record; otherwise it is FAIL. -/
theorem C17_compares_reparsed_size (c : DiskAvailChecker)
    (GetAvailableSpace : GoString → Except GoError F) (exps : List GoString)
    (E : List DiskRecord) (V : List F) (A : List DiskRecord) (hne : exps ≠ [])
    (hE : List.Forall₂ (ParsesTo ParseDiskForDir) exps E)
    (hV : List.Forall₂ (ProbesTo GetAvailableSpace) E V)
    (hA : List.Forall₂ (ParsesTo ParseDiskForDir)
      (List.zipWith (fun r v => r.dir ++ goStr ";" ++ ParseSize v ++ goStr ";") E V) A) :
    ∃ c1 : DiskAvailChecker,
      DiskAvailChecker.Check ParseDiskForDir ParseSize float64 c
          (RealDiskAvailRetriever.Collect ParseDiskForDir ParseSize GetAvailableSpace exps)
        = Outcome.returned c1 none ∧
      (c1.ReturnCode = ReturnCode.PASS ↔
        ∀ (i : Nat) (ha : i < A.length) (he : i < E.length), E[i].size ≤ A[i].size) ∧
      (c1.ReturnCode ≠ ReturnCode.PASS → c1.ReturnCode = ReturnCode.FAIL) := by
  have hloop := congrArg Prod.fst (collectLoopProbed_ok ParseDiskForDir ParseSize
    GetAvailableSpace exps E V [] [] hE hV)
  rw [collectLoopProbed_fst] at hloop
  have hcol : RealDiskAvailRetriever.Collect ParseDiskForDir ParseSize GetAvailableSpace exps
      = { exp := some exps
          act := some
            (List.zipWith (fun r v => r.dir ++ goStr ";" ++ ParseSize v ++ goStr ";") E V)
          err := none } := by
    simp only [RealDiskAvailRetriever.Collect, hloop, List.nil_append, actualRecord]
  have hlen : (List.zipWith (fun r v => r.dir ++ goStr ";" ++ ParseSize v ++ goStr ";")
      E V).length = exps.length := by
    rw [List.length_zipWith, ← hV.length_eq, hE.length_eq]
    simp
  have hactsne : List.zipWith (fun r v => r.dir ++ goStr ";" ++ ParseSize v ++ goStr ";")
      E V ≠ [] := by
    intro h
    rw [h] at hlen
    exact hne (List.length_eq_zero.mp hlen.symm)
  have hE1 : List.Forall₂ (ParsesTo ParseDiskForDir)
      (exps.take (List.zipWith (fun r v => r.dir ++ goStr ";" ++ ParseSize v ++ goStr ";")
        E V).length) E := by
    rw [hlen, List.take_length]; exact hE
  rw [hcol]
  refine ⟨_, Check_all_parse ParseDiskForDir ParseSize float64 c exps _ A E hactsne hA hE1
    (le_of_eq hlen), ?_, ?_⟩
  · rw [← allMeet_iff]
    cases allMeet A E <;> simp [DiskAvailChecker.ReturnCode]
  · cases allMeet A E <;> simp [DiskAvailChecker.ReturnCode]

end

/-- C16 on a run: `/data` meets its minimum; the expected list goes on with the record of `/`,
which has no actual record, and with the malformed `"/tmp;1G"`. `Check` returns no error, the
return code is PASS, and the call gives what it gives without the two extra records. -/
theorem C16_only_compared_records_matter_witness :
    DiskAvailChecker.Check (tableParser scenarioRecords) (tableParseSize scenarioSizes) id
        (newDiskAvailChecker ReturnCode.WARN)
        { exp := some [goStr "/data;1G;clean /data", goStr "/;100G;free up /", goStr "/tmp;1G"]
          act := some [goStr "/data;2.0GiB;"], err := none }
      = Outcome.returned
          { newDiskAvailChecker ReturnCode.WARN with
            rc := ReturnCode.PASS
            result := goStr "/data: act: 2.0GiB, exp: 953.7MiB" }
          none ∧
    DiskAvailChecker.Check (tableParser scenarioRecords) (tableParseSize scenarioSizes) id
        (newDiskAvailChecker ReturnCode.WARN)
        { exp := some [goStr "/data;1G;clean /data"]
          act := some [goStr "/data;2.0GiB;"], err := none }
      = DiskAvailChecker.Check (tableParser scenarioRecords) (tableParseSize scenarioSizes) id
          (newDiskAvailChecker ReturnCode.WARN)
          { exp := some [goStr "/data;1G;clean /data", goStr "/;100G;free up /",
              goStr "/tmp;1G"]
            act := some [goStr "/data;2.0GiB;"], err := none } :=
  ⟨(C16_only_compared_records_matter (tableParser scenarioRecords)
      (tableParseSize scenarioSizes) id (newDiskAvailChecker ReturnCode.WARN)
      [goStr "/data;2.0GiB;"] [goStr "/data;1G;clean /data"]
      [goStr "/;100G;free up /", goStr "/tmp;1G"] [] (tableParser scenarioRecords)
      [{ dir := goStr "/data", size := 2147483648, failedSug := [] }]
      [{ dir := goStr "/data", size := 1000000000, failedSug := goStr "clean /data" }]
      (by simp) rfl
      (List.Forall₂.cons (by rfl) List.Forall₂.nil)
      (List.Forall₂.cons (by rfl) List.Forall₂.nil)
      (fun _ _ => rfl) (fun _ _ => rfl)).1.trans (by rfl),
   (C16_only_compared_records_matter (tableParser scenarioRecords)
      (tableParseSize scenarioSizes) id (newDiskAvailChecker ReturnCode.WARN)
      [goStr "/data;2.0GiB;"] [goStr "/data;1G;clean /data"]
      [goStr "/;100G;free up /", goStr "/tmp;1G"] [] (tableParser scenarioRecords)
      [{ dir := goStr "/data", size := 2147483648, failedSug := [] }]
      [{ dir := goStr "/data", size := 1000000000, failedSug := goStr "clean /data" }]
      (by simp) rfl
      (List.Forall₂.cons (by rfl) List.Forall₂.nil)
      (List.Forall₂.cons (by rfl) List.Forall₂.nil)
      (fun _ _ => rfl) (fun _ _ => rfl)).2⟩

/-- C17 on a run: the minimum of `/` is 100·10⁹ bytes and the probe returns exactly 100·10⁹
bytes, which would meet it; the collected record is `"/;93.1GiB;"`, read back as 99965363814
bytes, and the return code is FAIL. -/
theorem C17_compares_reparsed_size_witness :
    tableProbe roundTripFree (goStr "/") = Except.ok 100000000000 ∧
    RealDiskAvailRetriever.Collect (tableParser roundTripRecords)
        (tableParseSize roundTripSizes) (tableProbe roundTripFree) [goStr "/;100G;free up /"]
      = { exp := some [goStr "/;100G;free up /"], act := some [goStr "/;93.1GiB;"]
          err := none } ∧
    ∃ c1 : DiskAvailChecker,
      DiskAvailChecker.Check (tableParser roundTripRecords) (tableParseSize roundTripSizes) id
          (newDiskAvailChecker ReturnCode.WARN)
          (RealDiskAvailRetriever.Collect (tableParser roundTripRecords)
            (tableParseSize roundTripSizes) (tableProbe roundTripFree)
            [goStr "/;100G;free up /"])
        = Outcome.returned c1 none ∧
      c1.ReturnCode = ReturnCode.FAIL := by
  refine ⟨by rfl, by rfl, ?_⟩
  obtain ⟨c1, h, hiff, hfail⟩ :=
    C17_compares_reparsed_size (tableParser roundTripRecords) (tableParseSize roundTripSizes)
      id (newDiskAvailChecker ReturnCode.WARN) (tableProbe roundTripFree)
      [goStr "/;100G;free up /"]
      [{ dir := goStr "/", size := 100000000000, failedSug := goStr "free up /" }]
      [100000000000]
      [{ dir := goStr "/", size := 99965363814, failedSug := [] }]
      (by simp)
      (List.Forall₂.cons (by rfl) List.Forall₂.nil)
      (List.Forall₂.cons (by rfl) List.Forall₂.nil)
      (List.Forall₂.cons (by rfl) List.Forall₂.nil)
  refine ⟨c1, h, hfail (fun hp => ?_)⟩
  have h0 := hiff.mp hp 0 (by decide) (by decide)
  exact absurd h0 (by decide)

end ServerCheck
